import Mathlib

/-!
The gorao start-up pipeline: configuration resolution, rule aggregation and
validation.

A shallow embedding of the start-up pipeline of `internal/cmd` (`options.go`,
`fileloader.go`, `config.go`, `cmd.go`) together with the Go standard-library
functions it calls (`netip.ParseAddr`, `net.ParseIP`, `IP.To4`, `IP.To16`,
`strings.TrimSpace`, `bufio.Scanner` with `ScanLines`).

Conventions:
* a Go `string` is a Lean `String` holding valid Unicode text; parsing works on
  its character list;
* a Go `int` is an `Int`, `uint16(x)` is `x mod 2^16`, `uint32` values are `Nat`;
* a `float64` is only ever copied, so it is carried as its IEEE-754 bit pattern;
* `log.Fatalf` terminates the process: functions calling it return `Except`.
-/

namespace Gorao

deriving instance DecidableEq for Except

/-! ## `net/netip`: addresses and their parser -/

/-- The Go type `netip.Addr`: the zero value (no address), an IPv4 address of
four bytes, or an IPv6 address of sixteen bytes with an optional zone. -/
inductive Addr where
  | zero : Addr
  | v4 (bytes : List Nat) : Addr
  | v6 (bytes : List Nat) (zone : String) : Addr
  deriving DecidableEq, Repr

/-- The Go type `netip.AddrPort`. -/
structure AddrPort where
  ip : Addr
  port : Nat
  deriving DecidableEq, Repr

/-- The zero value of `netip.AddrPort` (what `var x netip.AddrPort` declares). -/
def AddrPort.zero : AddrPort := { ip := Addr.zero, port := 0 }

/-- The Go conversion `uint16(x)` of an `int`. -/
def uint16 (x : Int) : Nat := (x % 65536).toNat

/-- The Go function `netip.AddrPortFrom`. -/
def AddrPortFrom (ip : Addr) (port : Nat) : AddrPort := { ip := ip, port := port }

/-- Value of a decimal digit character, if it is one. -/
def decDigit (c : Char) : Option Nat :=
  if '0' ≤ c ∧ c ≤ '9' then some (c.toNat - '0'.toNat) else none

/-- Value of a hexadecimal digit character, if it is one. -/
def hexDigit (c : Char) : Option Nat :=
  if '0' ≤ c ∧ c ≤ '9' then some (c.toNat - '0'.toNat)
  else if 'a' ≤ c ∧ c ≤ 'f' then some (c.toNat - 'a'.toNat + 10)
  else if 'A' ≤ c ∧ c ≤ 'F' then some (c.toNat - 'A'.toNat + 10)
  else none

/-- The loop of `netip.parseIPv4Fields`. `prev` is the character before the
current one (`none` at index 0), `fields` holds the octets stored so far (so
`pos = fields.length`), `val` and `digLen` are the loop variables of the same
name. A dot is refused at index 0, at the last index, after another dot, and
after three stored octets; a digit is refused after a lone `0` and when the
octet exceeds 255. -/
def parseIPv4Loop : List Char → Option Char → List Nat → Nat → Nat → Option (List Nat)
  | [], _, fields, val, _ =>
    if fields.length < 3 then none else some (fields ++ [val])
  | c :: rest, prev, fields, val, digLen =>
    match decDigit c with
    | some d =>
      if digLen = 1 ∧ val = 0 then none
      else if val * 10 + d > 255 then none
      else parseIPv4Loop rest (some c) fields (val * 10 + d) (digLen + 1)
    | none =>
      if c = '.' then
        if prev = none ∨ rest = [] ∨ prev = some '.' then none
        else if fields.length = 3 then none
        else parseIPv4Loop rest (some c) (fields ++ [val]) 0 0
      else none

/-- The Go function `netip.parseIPv4Fields` on a whole string: the four octets
of a dotted-decimal address. -/
def parseIPv4Fields (s : List Char) : Option (List Nat) :=
  parseIPv4Loop s none [] 0 0

/-- The inner loop of `netip.parseIPv6` reading one hexadecimal group: `off`
digits read so far with value `acc`. Fails on a fifth digit; otherwise gives
the digit count, the value and the unread rest. -/
def hexGroup : List Char → Nat → Nat → Option (Nat × Nat × List Char)
  | [], off, acc => some (off, acc, [])
  | c :: rest, off, acc =>
    match hexDigit c with
    | some d =>
      if off > 3 then none
      else if acc * 16 + d > 65535 then none
      else hexGroup rest (off + 1) (acc * 16 + d)
    | none => some (off, acc, c :: rest)

/-- The outer loop of `netip.parseIPv6`. `ip` holds the bytes written so far
(so the Go index `i` is `ip.length`), `ellipsis` the byte position of `::` if
seen. `groups` is the number of iterations left: the Go loop runs while
`i < 16` and every iteration that continues adds 2 to `i`, so with
`ip.length + 2 * groups = 16` the count is exhausted exactly when `i = 16`.
The result is the bytes written, the ellipsis and the unread rest. -/
def parseIPv6Loop : Nat → List Nat → Option Nat → List Char →
    Option (List Nat × Option Nat × List Char)
  | 0, ip, ellipsis, s => some (ip, ellipsis, s)
  | groups + 1, ip, ellipsis, s =>
    match hexGroup s 0 0 with
    | none => none
    | some (off, acc, rest) =>
      if off = 0 then none
      else
        match rest with
        | [] => some (ip ++ [acc / 256, acc % 256], ellipsis, [])
        | c :: rest1 =>
          if c = '.' then
            if ellipsis = none ∧ ip.length ≠ 12 then none
            else if ip.length + 4 > 16 then none
            else
              match parseIPv4Fields s with
              | none => none
              | some fields => some (ip ++ fields, ellipsis, [])
          else if c ≠ ':' then none
          else
            match rest1 with
            | [] => none
            | c1 :: rest2 =>
              if c1 = ':' then
                if ellipsis ≠ none then none
                else
                  match rest2 with
                  | [] => some (ip ++ [acc / 256, acc % 256],
                      some (ip.length + 2), [])
                  | _ :: _ => parseIPv6Loop groups (ip ++ [acc / 256, acc % 256])
                      (some (ip.length + 2)) rest2
              else parseIPv6Loop groups (ip ++ [acc / 256, acc % 256]) ellipsis
                (c1 :: rest2)

/-- The part of `netip.parseIPv6` after the loop: the whole string must have
been used, and an address of fewer than sixteen bytes is completed by zeros
at the ellipsis, which must be there and must stand for at least one group. -/
def finishIPv6 : List Nat × Option Nat × List Char → Option (List Nat)
  | (ip, ellipsis, rest) =>
    if rest ≠ [] then none
    else if ip.length < 16 then
      match ellipsis with
      | none => none
      | some e => some (ip.take e ++ List.replicate (16 - ip.length) 0 ++ ip.drop e)
    else if ellipsis ≠ none then none
    else some ip

/-- The Go function `netip.parseIPv6` after the zone has been split off: the
sixteen bytes of the address written in `s`. A leading `::` sets the ellipsis
at 0, and `::` alone is the unspecified address. -/
def parseIPv6Bytes (s : List Char) : Option (List Nat) :=
  match s with
  | ':' :: ':' :: rest =>
    if rest = [] then some (List.replicate 16 0)
    else (parseIPv6Loop 8 [] (some 0) rest).bind finishIPv6
  | _ => (parseIPv6Loop 8 [] none s).bind finishIPv6

/-- The Go function `netip.parseIPv6`: the part before the first `%` is the
address, the part after it the zone, which must not be empty when the `%` is
there. -/
def parseIPv6 (s : List Char) : Option Addr :=
  match s.span (fun c => c ≠ '%') with
  | (addr, []) => (parseIPv6Bytes addr).map (fun b => Addr.v6 b "")
  | (addr, _ :: zone) =>
    if zone = [] then none
    else (parseIPv6Bytes addr).map (fun b => Addr.v6 b (String.mk zone))

/-- The dispatch loop of `netip.ParseAddr`: the first of `.`, `:` and `%` in
the string decides how the whole string `s` is read. -/
def parseAddrScan (s : List Char) : List Char → Option Addr
  | [] => none
  | c :: rest =>
    if c = '.' then (parseIPv4Fields s).map Addr.v4
    else if c = ':' then parseIPv6 s
    else if c = '%' then none
    else parseAddrScan s rest

/-- The Go function `netip.ParseAddr`; `none` stands for a non-nil error. -/
def ParseAddr (s : String) : Option Addr := parseAddrScan s.data s.data

/-! ## `net`: the byte-slice address type -/

/-- The Go type `net.IP`, a byte slice; the nil slice is `[]` (no function
here produces an empty slice that is not nil). -/
abbrev IP := List Nat

/-- The Go method `Addr.Zone`. -/
def Addr.Zone : Addr → String
  | Addr.v6 _ zone => zone
  | _ => ""

/-- The Go method `Addr.As16`: an IPv4 address becomes the IPv4-mapped IPv6
address `::ffff:a.b.c.d`. -/
def Addr.As16 : Addr → List Nat
  | Addr.zero => List.replicate 16 0
  | Addr.v4 bytes => List.replicate 10 0 ++ [255, 255] ++ bytes
  | Addr.v6 bytes _ => bytes

/-- The Go function `net.ParseIP`: the sixteen-byte form of the address, or
nil when `netip.ParseAddr` fails or the address has a zone. -/
def ParseIP (s : String) : IP :=
  match ParseAddr s with
  | none => []
  | some addr => if addr.Zone ≠ "" then [] else addr.As16

/-- The Go method `IP.To4`: a four-byte slice is returned as it is, an
IPv4-mapped sixteen-byte slice gives its last four bytes, anything else nil. -/
def To4 (ip : IP) : IP :=
  if ip.length = 4 then ip
  else if ip.length = 16 ∧ (ip.take 10).all (fun b => b == 0) ∧
      ip[10]? = some 255 ∧ ip[11]? = some 255 then ip.drop 12
  else []

/-- The Go function `net.IPv4`: the sixteen-byte form of `a.b.c.d`. -/
def IPv4 (a b c d : Nat) : IP := List.replicate 10 0 ++ [255, 255, a, b, c, d]

/-- The Go method `IP.To16`: a four-byte slice is converted by `net.IPv4`, a
sixteen-byte slice is returned as it is, anything else gives nil. -/
def To16 (ip : IP) : IP :=
  match ip with
  | [a, b, c, d] => IPv4 a b c d
  | _ => if ip.length = 16 then ip else []

/-! ## `strings`, `bufio` and `os` -/

/-- The Go function `unicode.IsSpace`: the Latin-1 spaces and the code points
with the Unicode property White_Space. -/
def IsSpace (c : Char) : Bool :=
  let n := c.toNat
  (9 ≤ n ∧ n ≤ 13) ∨ n = 32 ∨ n = 133 ∨ n = 160 ∨ n = 5760 ∨
    (8192 ≤ n ∧ n ≤ 8202) ∨ n = 8232 ∨ n = 8233 ∨ n = 8239 ∨ n = 8287 ∨ n = 12288

/-- The Go function `strings.TrimSpace`: the string without its leading and
trailing white space. -/
def TrimSpace (s : String) : String :=
  String.mk ((s.data.dropWhile IsSpace).rdropWhile IsSpace)

/-- The Go function `strings.HasPrefix`. -/
def HasPrefix (s pre : String) : Bool := pre.data.isPrefixOf s.data

/-- The errors of the Go runtime the loader can meet: an `*os.PathError` (or a
read error) with its operation, path and `errno`, and `bufio.ErrTooLong`. -/
inductive GoError where
  | pathError (op : String) (path : String) (errno : Nat) : GoError
  | errTooLong : GoError
  deriving DecidableEq, Repr

/-- The errno `ENOENT`. -/
def ENOENT : Nat := 2

/-- The Go function `os.IsNotExist`. -/
def IsNotExist : GoError → Bool
  | GoError.pathError _ _ errno => errno == ENOENT
  | GoError.errTooLong => false

/-- An opened file as the scanner sees it: the text its reads deliver and the
error that ends them, `none` being the end of the file. -/
structure File where
  content : List Char
  readErr : Option GoError
  deriving DecidableEq, Repr

/-- The file system as `os.Open` sees it: for each path an error or a file. -/
abbrev FileSystem := String → Except GoError File

/-- The constant `bufio.MaxScanTokenSize`: the size the buffer of a
`bufio.Scanner` cannot exceed. -/
def MaxScanTokenSize : Nat := 64 * 1024

/-- The number of bytes of a text in UTF-8. -/
def byteLen (l : List Char) : Nat := (l.map Char.utf8Size).sum

/-- The function `dropCR` of `bufio`: one carriage return at the end of a
line is not part of it. -/
def dropCR (line : List Char) : List Char :=
  if line.getLast? = some '\r' then line.dropLast else line

/-- The tokens `bufio.Scanner` gives with the split function `ScanLines`, and
the scanner's error, on the text `data` following the pending text `cur`. A
line ends at a newline; text left at the end of the input is a last line; a
pending line that fills the whole buffer stops the scan with `ErrTooLong`; a
read error `final` is the scanner's error once the delivered text is used. -/
def scanLoop (final : Option GoError) : List Char → List Char →
    List String × Option GoError
  | [], cur =>
    if cur = [] then ([], final)
    else if byteLen cur ≥ MaxScanTokenSize then ([], some GoError.errTooLong)
    else ([String.mk (dropCR cur)], final)
  | c :: rest, cur =>
    if c = '\n' then
      if byteLen cur ≥ MaxScanTokenSize then ([], some GoError.errTooLong)
      else
        let r := scanLoop final rest []
        (String.mk (dropCR cur) :: r.1, r.2)
    else scanLoop final rest (cur ++ [c])

/-- The run of `bufio.NewScanner(file)`: every `scanner.Text()` of a
successful `scanner.Scan()`, in order, and the final `scanner.Err()`. -/
def scanLines (file : File) : List String × Option GoError :=
  scanLoop file.readErr file.content []

/-! ## `options.go` -/

/-- A `float64`, carried as its IEEE-754 bit pattern: the pipeline only copies
such values. -/
abbrev Float64 := Nat

/-- The struct `Options` of `options.go`, field for field. A
`map[string]float64` is the list of its entries. -/
structure Options where
  Config : String
  DNSListenAddress : String
  DNSPort : Int
  DNSUpstream : String
  DNSRedirectIPV4To : String
  DNSRedirectIPV6To : String
  DNSRedirectRules : List String
  DNSDropRules : List String
  DNSCacheEnabled : Bool
  DNSCacheSizeBytes : Int
  DNSCacheMinTTL : Nat
  DNSCacheMaxTTL : Nat
  HTTPListenAddress : String
  HTTPPort : Int
  TLSListenAddress : String
  TLSPort : Int
  DOTListenAddress : String
  DOTPort : Int
  DOHListenAddress : String
  DOHPort : Int
  DOQListenAddress : String
  DOQPort : Int
  TLSCertFile : String
  TLSKeyFile : String
  BandwidthRate : Float64
  BandwidthRules : List (String × Float64)
  ForwardProxy : String
  ForwardRules : List String
  ForwardRulesFile : String
  DNSRedirectRulesFile : String
  BlockRules : List String
  BlockRulesFile : String
  DropRules : List String
  DropRulesFile : String
  Verbose : Bool
  LogOutput : String
  deriving DecidableEq, Repr

/-- The function `DefaultOptions` of `options.go`; fields it does not name
have the zero value of their type. -/
def DefaultOptions : Options where
  Config := ""
  DNSListenAddress := "0.0.0.0"
  DNSPort := 53
  DNSUpstream := "8.8.8.8"
  DNSRedirectIPV4To := ""
  DNSRedirectIPV6To := ""
  DNSRedirectRules := ["*"]
  DNSDropRules := []
  DNSCacheEnabled := true
  DNSCacheSizeBytes := 64 * 1024 * 1024
  DNSCacheMinTTL := 60
  DNSCacheMaxTTL := 3600
  HTTPListenAddress := "0.0.0.0"
  HTTPPort := 80
  TLSListenAddress := "0.0.0.0"
  TLSPort := 443
  DOTListenAddress := "0.0.0.0"
  DOTPort := 853
  DOHListenAddress := "0.0.0.0"
  DOHPort := 8443
  DOQListenAddress := "0.0.0.0"
  DOQPort := 8853
  TLSCertFile := ""
  TLSKeyFile := ""
  BandwidthRate := 0
  BandwidthRules := []
  ForwardProxy := ""
  ForwardRules := []
  ForwardRulesFile := ""
  DNSRedirectRulesFile := ""
  BlockRules := []
  BlockRulesFile := ""
  DropRules := []
  DropRulesFile := ""
  Verbose := false
  LogOutput := ""

/-! ## `dnsproxy/config.go` and the tunnel configuration -/

/-- The struct `dnsproxy.Config`. -/
structure DNSConfig where
  ListenAddr : AddrPort
  TLSListenAddr : AddrPort
  HTTPSListenAddr : AddrPort
  QUICListenAddr : AddrPort
  TLSCertFile : String
  TLSKeyFile : String
  Upstream : String
  RedirectIPv4To : IP
  RedirectIPv6To : IP
  RedirectRules : List String
  DropRules : List String
  CacheEnabled : Bool
  CacheSizeBytes : Int
  CacheMinTTL : Nat
  CacheMaxTTL : Nat
  deriving DecidableEq, Repr

/-- The Go type `net.TCPAddr` as `togoraoConfig` fills it (the zone stays
empty): an address and an `int` port. -/
structure TCPAddr where
  IP : IP
  Port : Int
  deriving DecidableEq, Repr

/-- Modelled from the spec: the struct `sniproxy.Config` (the TunnelConfig of
the spec), whose declaration in `internal/sniproxy` is missing; these are the
fields named by the composite literal of `togoraoConfig` and by the spec (TLS
and plain listen addresses, forward-proxy address, forward, block and drop rule
sets, bandwidth rate). -/
structure TunnelConfig where
  TLSListenAddr : TCPAddr
  HTTPListenAddr : TCPAddr
  ForwardProxy : String
  ForwardRules : List String
  BlockRules : List String
  DropRules : List String
  BandwidthRate : Float64
  deriving DecidableEq, Repr

/-! ## `fileloader.go` -/

/-- The loop body of `loadRulesFromFile` (lines 31-40) over the scanner's
tokens: `rules` is the slice built so far. -/
def loadLoop : List String → List String → List String
  | [], rules => rules
  | text :: rest, rules =>
    let line := TrimSpace text
    if line = "" ∨ HasPrefix line "#" then loadLoop rest rules
    else loadLoop rest (rules ++ [line])

/-- The function `loadRulesFromFile` of `fileloader.go`: the pair it returns,
the rules (nil is `[]`) and the error (nil is `none`). -/
def loadRulesFromFile (fs : FileSystem) (filePath : String) :
    List String × Option GoError :=
  if filePath = "" then ([], none)
  else
    match fs filePath with
    | Except.error err => if IsNotExist err then ([], none) else ([], some err)
    | Except.ok file =>
      let scan := scanLines file
      let rules := loadLoop scan.1 []
      match scan.2 with
      | some err => ([], some err)
      | none => (rules, none)

/-! ## `config.go` -/

/-- The ways `config.go` and `cmd.go` end the process through `log.Fatalf`,
each with the offending value it reports. -/
inductive FatalError where
  /-- From `check(err)` after `netip.ParseAddr` failed on the value. -/
  | check (value : String)
  /-- Reported as "failed to parse dns-redirect-ipv4-to". -/
  | parseRedirectIPv4 (value : String)
  /-- Reported as "dns-redirect-ipv4-to must be an IPv4 address". -/
  | redirectNotIPv4 (value : String)
  /-- Reported as "failed to parse dns-redirect-ipv6-to". -/
  | parseRedirectIPv6 (value : String)
  /-- Reported as "dns-redirect-ipv6-to must be an IPv6 address". -/
  | redirectNotIPv6 (value : String)
  /-- Reported as "either dns-redirect-ipv4-to or dns-redirect-ipv6-to must be
  specified". -/
  | noRedirectTarget
  /-- Reported as "failed to parse tls-address". -/
  | parseTLSAddress (value : String)
  /-- Reported as "failed to parse http-address". -/
  | parseHTTPAddress (value : String)
  /-- Reported as "cannot parse config file". -/
  | parseConfigFile
  /-- Reported as "failed to load forward rules from" the path. -/
  | loadForwardRules (path : String) (err : GoError)
  /-- Reported as "failed to load DNS redirect rules from" the path. -/
  | loadDNSRedirectRules (path : String) (err : GoError)
  /-- Reported as "failed to load block rules from" the path. -/
  | loadBlockRules (path : String) (err : GoError)
  /-- Reported as "failed to load drop rules from" the path. -/
  | loadDropRules (path : String) (err : GoError)
  deriving DecidableEq, Repr

/-- The block `toDNSProxyConfig` repeats for DoT, DoH and DoQ (lines 20-39):
the listener stays the zero `AddrPort` unless the address is not empty and the
port is not zero; then the address must parse and the port is `uint16(port)`. -/
def optionalListener (address : String) (port : Int) : Except FatalError AddrPort :=
  if address ≠ "" ∧ port ≠ 0 then
    match ParseAddr address with
    | none => Except.error (FatalError.check address)
    | some addr => Except.ok (AddrPortFrom addr (uint16 port))
  else Except.ok AddrPort.zero

/-- Lines 53-72 of `toDNSProxyConfig`: the value of `cfg.RedirectIPv4To`. -/
def redirectIPv4 (options : Options) : Except FatalError IP :=
  if options.DNSRedirectIPV4To ≠ "" then
    let ip := ParseIP options.DNSRedirectIPV4To
    if ip = [] then Except.error (FatalError.parseRedirectIPv4 options.DNSRedirectIPV4To)
    else if To4 ip = [] then
      Except.error (FatalError.redirectNotIPv4 options.DNSRedirectIPV4To)
    else Except.ok ip
  else Except.ok []

/-- Lines 74-93 of `toDNSProxyConfig`: the value of `cfg.RedirectIPv6To`. -/
def redirectIPv6 (options : Options) : Except FatalError IP :=
  if options.DNSRedirectIPV6To ≠ "" then
    let ip := ParseIP options.DNSRedirectIPV6To
    if ip = [] then Except.error (FatalError.parseRedirectIPv6 options.DNSRedirectIPV6To)
    else if To16 ip = [] then
      Except.error (FatalError.redirectNotIPv6 options.DNSRedirectIPV6To)
    else Except.ok ip
  else Except.ok []

/-- The function `toDNSProxyConfig` of `config.go`; an error is a call of
`log.Fatalf`, after which no configuration exists. -/
def toDNSProxyConfig (options : Options) : Except FatalError DNSConfig :=
  match ParseAddr options.DNSListenAddress with
  | none => Except.error (FatalError.check options.DNSListenAddress)
  | some addr =>
    let addrPort := AddrPortFrom addr (uint16 options.DNSPort)
    match optionalListener options.DOTListenAddress options.DOTPort with
    | Except.error e => Except.error e
    | Except.ok tlsListenAddr =>
    match optionalListener options.DOHListenAddress options.DOHPort with
    | Except.error e => Except.error e
    | Except.ok httpsListenAddr =>
    match optionalListener options.DOQListenAddress options.DOQPort with
    | Except.error e => Except.error e
    | Except.ok quicListenAddr =>
    match redirectIPv4 options with
    | Except.error e => Except.error e
    | Except.ok redirectIPv4To =>
    match redirectIPv6 options with
    | Except.error e => Except.error e
    | Except.ok redirectIPv6To =>
    if redirectIPv4To = [] ∧ redirectIPv6To = [] then
      Except.error FatalError.noRedirectTarget
    else
      Except.ok {
        ListenAddr := addrPort
        TLSListenAddr := tlsListenAddr
        HTTPSListenAddr := httpsListenAddr
        QUICListenAddr := quicListenAddr
        TLSCertFile := options.TLSCertFile
        TLSKeyFile := options.TLSKeyFile
        Upstream := options.DNSUpstream
        RedirectRules := options.DNSRedirectRules
        DropRules := options.DNSDropRules
        RedirectIPv4To := redirectIPv4To
        RedirectIPv6To := redirectIPv6To
        CacheEnabled := options.DNSCacheEnabled
        CacheSizeBytes := options.DNSCacheSizeBytes
        CacheMinTTL := options.DNSCacheMinTTL
        CacheMaxTTL := options.DNSCacheMaxTTL }

/-- The function `togoraoConfig` of `config.go`. -/
def togoraoConfig (options : Options) : Except FatalError TunnelConfig :=
  let tlsIP := ParseIP options.TLSListenAddress
  if tlsIP = [] then Except.error (FatalError.parseTLSAddress options.TLSListenAddress)
  else
    let plainIP := ParseIP options.HTTPListenAddress
    if plainIP = [] then
      Except.error (FatalError.parseHTTPAddress options.HTTPListenAddress)
    else
      Except.ok {
        TLSListenAddr := { IP := tlsIP, Port := options.TLSPort }
        HTTPListenAddr := { IP := plainIP, Port := options.HTTPPort }
        ForwardProxy := options.ForwardProxy
        ForwardRules := options.ForwardRules
        BlockRules := options.BlockRules
        DropRules := options.DropRules
        BandwidthRate := options.BandwidthRate }

/-! ## `cmd.go`: the sources of the settings -/

/-- The settings, one per field of `Options`. -/
inductive Setting where
  | Config
  | DNSListenAddress
  | DNSPort
  | DNSUpstream
  | DNSRedirectIPV4To
  | DNSRedirectIPV6To
  | DNSRedirectRules
  | DNSDropRules
  | DNSCacheEnabled
  | DNSCacheSizeBytes
  | DNSCacheMinTTL
  | DNSCacheMaxTTL
  | HTTPListenAddress
  | HTTPPort
  | TLSListenAddress
  | TLSPort
  | DOTListenAddress
  | DOTPort
  | DOHListenAddress
  | DOHPort
  | DOQListenAddress
  | DOQPort
  | TLSCertFile
  | TLSKeyFile
  | BandwidthRate
  | BandwidthRules
  | ForwardProxy
  | ForwardRules
  | ForwardRulesFile
  | DNSRedirectRulesFile
  | BlockRules
  | BlockRulesFile
  | DropRules
  | DropRulesFile
  | Verbose
  | LogOutput
  deriving DecidableEq, Repr

/-- A value of a setting, by the Go type of the field. -/
inductive Value where
  | str (s : String)
  | int (i : Int)
  | uint32 (n : Nat)
  | bool (b : Bool)
  | float (f : Float64)
  | strings (l : List String)
  | rates (m : List (String × Float64))
  deriving DecidableEq, Repr

/-- The value a settings value holds for a setting. -/
def Options.get (options : Options) : Setting → Value
  | Setting.Config => Value.str options.Config
  | Setting.DNSListenAddress => Value.str options.DNSListenAddress
  | Setting.DNSPort => Value.int options.DNSPort
  | Setting.DNSUpstream => Value.str options.DNSUpstream
  | Setting.DNSRedirectIPV4To => Value.str options.DNSRedirectIPV4To
  | Setting.DNSRedirectIPV6To => Value.str options.DNSRedirectIPV6To
  | Setting.DNSRedirectRules => Value.strings options.DNSRedirectRules
  | Setting.DNSDropRules => Value.strings options.DNSDropRules
  | Setting.DNSCacheEnabled => Value.bool options.DNSCacheEnabled
  | Setting.DNSCacheSizeBytes => Value.int options.DNSCacheSizeBytes
  | Setting.DNSCacheMinTTL => Value.uint32 options.DNSCacheMinTTL
  | Setting.DNSCacheMaxTTL => Value.uint32 options.DNSCacheMaxTTL
  | Setting.HTTPListenAddress => Value.str options.HTTPListenAddress
  | Setting.HTTPPort => Value.int options.HTTPPort
  | Setting.TLSListenAddress => Value.str options.TLSListenAddress
  | Setting.TLSPort => Value.int options.TLSPort
  | Setting.DOTListenAddress => Value.str options.DOTListenAddress
  | Setting.DOTPort => Value.int options.DOTPort
  | Setting.DOHListenAddress => Value.str options.DOHListenAddress
  | Setting.DOHPort => Value.int options.DOHPort
  | Setting.DOQListenAddress => Value.str options.DOQListenAddress
  | Setting.DOQPort => Value.int options.DOQPort
  | Setting.TLSCertFile => Value.str options.TLSCertFile
  | Setting.TLSKeyFile => Value.str options.TLSKeyFile
  | Setting.BandwidthRate => Value.float options.BandwidthRate
  | Setting.BandwidthRules => Value.rates options.BandwidthRules
  | Setting.ForwardProxy => Value.str options.ForwardProxy
  | Setting.ForwardRules => Value.strings options.ForwardRules
  | Setting.ForwardRulesFile => Value.str options.ForwardRulesFile
  | Setting.DNSRedirectRulesFile => Value.str options.DNSRedirectRulesFile
  | Setting.BlockRules => Value.strings options.BlockRules
  | Setting.BlockRulesFile => Value.str options.BlockRulesFile
  | Setting.DropRules => Value.strings options.DropRules
  | Setting.DropRulesFile => Value.str options.DropRulesFile
  | Setting.Verbose => Value.bool options.Verbose
  | Setting.LogOutput => Value.str options.LogOutput

/-- What one source says, a parsed YAML document or a parsed command line:
for each field the value it gives, or nothing when the key or the flag is
absent. A list flag passed several times gives the list of its values. -/
structure Source where
  Config : Option (String)
  DNSListenAddress : Option (String)
  DNSPort : Option (Int)
  DNSUpstream : Option (String)
  DNSRedirectIPV4To : Option (String)
  DNSRedirectIPV6To : Option (String)
  DNSRedirectRules : Option (List String)
  DNSDropRules : Option (List String)
  DNSCacheEnabled : Option (Bool)
  DNSCacheSizeBytes : Option (Int)
  DNSCacheMinTTL : Option (Nat)
  DNSCacheMaxTTL : Option (Nat)
  HTTPListenAddress : Option (String)
  HTTPPort : Option (Int)
  TLSListenAddress : Option (String)
  TLSPort : Option (Int)
  DOTListenAddress : Option (String)
  DOTPort : Option (Int)
  DOHListenAddress : Option (String)
  DOHPort : Option (Int)
  DOQListenAddress : Option (String)
  DOQPort : Option (Int)
  TLSCertFile : Option (String)
  TLSKeyFile : Option (String)
  BandwidthRate : Option (Float64)
  BandwidthRules : Option (List (String × Float64))
  ForwardProxy : Option (String)
  ForwardRules : Option (List String)
  ForwardRulesFile : Option (String)
  DNSRedirectRulesFile : Option (String)
  BlockRules : Option (List String)
  BlockRulesFile : Option (String)
  DropRules : Option (List String)
  DropRulesFile : Option (String)
  Verbose : Option (Bool)
  LogOutput : Option (String)
  deriving DecidableEq, Repr

/-- The value a source gives for a setting, if it gives one. -/
def Source.get (src : Source) : Setting → Option Value
  | Setting.Config => src.Config.map Value.str
  | Setting.DNSListenAddress => src.DNSListenAddress.map Value.str
  | Setting.DNSPort => src.DNSPort.map Value.int
  | Setting.DNSUpstream => src.DNSUpstream.map Value.str
  | Setting.DNSRedirectIPV4To => src.DNSRedirectIPV4To.map Value.str
  | Setting.DNSRedirectIPV6To => src.DNSRedirectIPV6To.map Value.str
  | Setting.DNSRedirectRules => src.DNSRedirectRules.map Value.strings
  | Setting.DNSDropRules => src.DNSDropRules.map Value.strings
  | Setting.DNSCacheEnabled => src.DNSCacheEnabled.map Value.bool
  | Setting.DNSCacheSizeBytes => src.DNSCacheSizeBytes.map Value.int
  | Setting.DNSCacheMinTTL => src.DNSCacheMinTTL.map Value.uint32
  | Setting.DNSCacheMaxTTL => src.DNSCacheMaxTTL.map Value.uint32
  | Setting.HTTPListenAddress => src.HTTPListenAddress.map Value.str
  | Setting.HTTPPort => src.HTTPPort.map Value.int
  | Setting.TLSListenAddress => src.TLSListenAddress.map Value.str
  | Setting.TLSPort => src.TLSPort.map Value.int
  | Setting.DOTListenAddress => src.DOTListenAddress.map Value.str
  | Setting.DOTPort => src.DOTPort.map Value.int
  | Setting.DOHListenAddress => src.DOHListenAddress.map Value.str
  | Setting.DOHPort => src.DOHPort.map Value.int
  | Setting.DOQListenAddress => src.DOQListenAddress.map Value.str
  | Setting.DOQPort => src.DOQPort.map Value.int
  | Setting.TLSCertFile => src.TLSCertFile.map Value.str
  | Setting.TLSKeyFile => src.TLSKeyFile.map Value.str
  | Setting.BandwidthRate => src.BandwidthRate.map Value.float
  | Setting.BandwidthRules => src.BandwidthRules.map Value.rates
  | Setting.ForwardProxy => src.ForwardProxy.map Value.str
  | Setting.ForwardRules => src.ForwardRules.map Value.strings
  | Setting.ForwardRulesFile => src.ForwardRulesFile.map Value.str
  | Setting.DNSRedirectRulesFile => src.DNSRedirectRulesFile.map Value.str
  | Setting.BlockRules => src.BlockRules.map Value.strings
  | Setting.BlockRulesFile => src.BlockRulesFile.map Value.str
  | Setting.DropRules => src.DropRules.map Value.strings
  | Setting.DropRulesFile => src.DropRulesFile.map Value.str
  | Setting.Verbose => src.Verbose.map Value.bool
  | Setting.LogOutput => src.LogOutput.map Value.str

/-- The source that says nothing: an empty YAML document, a command line
without flags. -/
def Source.empty : Source where
  Config := none
  DNSListenAddress := none
  DNSPort := none
  DNSUpstream := none
  DNSRedirectIPV4To := none
  DNSRedirectIPV6To := none
  DNSRedirectRules := none
  DNSDropRules := none
  DNSCacheEnabled := none
  DNSCacheSizeBytes := none
  DNSCacheMinTTL := none
  DNSCacheMaxTTL := none
  HTTPListenAddress := none
  HTTPPort := none
  TLSListenAddress := none
  TLSPort := none
  DOTListenAddress := none
  DOTPort := none
  DOHListenAddress := none
  DOHPort := none
  DOQListenAddress := none
  DOQPort := none
  TLSCertFile := none
  TLSKeyFile := none
  BandwidthRate := none
  BandwidthRules := none
  ForwardProxy := none
  ForwardRules := none
  ForwardRulesFile := none
  DNSRedirectRulesFile := none
  BlockRules := none
  BlockRulesFile := none
  DropRules := none
  DropRulesFile := none
  Verbose := none
  LogOutput := none

/-- The effect on `options` of `yaml.Unmarshal(content, options)` and of
`parser.Parse()` of go-flags, which both write through the struct tags of
`Options`: a field the source gives a value for is overwritten (a list is
replaced, not extended), every other field is left as it is. -/
def Source.apply (src : Source) (options : Options) : Options where
  Config := src.Config.getD options.Config
  DNSListenAddress := src.DNSListenAddress.getD options.DNSListenAddress
  DNSPort := src.DNSPort.getD options.DNSPort
  DNSUpstream := src.DNSUpstream.getD options.DNSUpstream
  DNSRedirectIPV4To := src.DNSRedirectIPV4To.getD options.DNSRedirectIPV4To
  DNSRedirectIPV6To := src.DNSRedirectIPV6To.getD options.DNSRedirectIPV6To
  DNSRedirectRules := src.DNSRedirectRules.getD options.DNSRedirectRules
  DNSDropRules := src.DNSDropRules.getD options.DNSDropRules
  DNSCacheEnabled := src.DNSCacheEnabled.getD options.DNSCacheEnabled
  DNSCacheSizeBytes := src.DNSCacheSizeBytes.getD options.DNSCacheSizeBytes
  DNSCacheMinTTL := src.DNSCacheMinTTL.getD options.DNSCacheMinTTL
  DNSCacheMaxTTL := src.DNSCacheMaxTTL.getD options.DNSCacheMaxTTL
  HTTPListenAddress := src.HTTPListenAddress.getD options.HTTPListenAddress
  HTTPPort := src.HTTPPort.getD options.HTTPPort
  TLSListenAddress := src.TLSListenAddress.getD options.TLSListenAddress
  TLSPort := src.TLSPort.getD options.TLSPort
  DOTListenAddress := src.DOTListenAddress.getD options.DOTListenAddress
  DOTPort := src.DOTPort.getD options.DOTPort
  DOHListenAddress := src.DOHListenAddress.getD options.DOHListenAddress
  DOHPort := src.DOHPort.getD options.DOHPort
  DOQListenAddress := src.DOQListenAddress.getD options.DOQListenAddress
  DOQPort := src.DOQPort.getD options.DOQPort
  TLSCertFile := src.TLSCertFile.getD options.TLSCertFile
  TLSKeyFile := src.TLSKeyFile.getD options.TLSKeyFile
  BandwidthRate := src.BandwidthRate.getD options.BandwidthRate
  BandwidthRules := src.BandwidthRules.getD options.BandwidthRules
  ForwardProxy := src.ForwardProxy.getD options.ForwardProxy
  ForwardRules := src.ForwardRules.getD options.ForwardRules
  ForwardRulesFile := src.ForwardRulesFile.getD options.ForwardRulesFile
  DNSRedirectRulesFile := src.DNSRedirectRulesFile.getD options.DNSRedirectRulesFile
  BlockRules := src.BlockRules.getD options.BlockRules
  BlockRulesFile := src.BlockRulesFile.getD options.BlockRulesFile
  DropRules := src.DropRules.getD options.DropRules
  DropRulesFile := src.DropRulesFile.getD options.DropRulesFile
  Verbose := src.Verbose.getD options.Verbose
  LogOutput := src.LogOutput.getD options.LogOutput

/-- What `os.ReadFile(configFile)` and `yaml.Unmarshal` make of the
configuration file: it cannot be read, it does not parse, or it is a document. -/
inductive ConfigFile where
  | unreadable : ConfigFile
  | malformed : ConfigFile
  | document (doc : Source) : ConfigFile
  deriving DecidableEq, Repr

/-- What `parser.Parse()` makes of the command line: a help request, an
error, or the flags passed. -/
inductive CommandLine where
  | help : CommandLine
  | invalid : CommandLine
  | parsed (flags : Source) : CommandLine
  deriving DecidableEq, Repr

/-- How `Main` ends the process: `os.Exit(code)` or `log.Fatalf`. -/
inductive Exit where
  | code (n : Nat) : Exit
  | fatal (e : FatalError) : Exit
  deriving DecidableEq, Repr

/-- Lines 29-57 of `Main`: the defaults, then the configuration file when it
can be read, then the command line. -/
def resolveOptions (configFile : ConfigFile) (args : CommandLine) : Except Exit Options :=
  let options := DefaultOptions
  let afterFile : Except Exit Options :=
    match configFile with
    | ConfigFile.unreadable => Except.ok options
    | ConfigFile.malformed => Except.error (Exit.fatal FatalError.parseConfigFile)
    | ConfigFile.document doc => Except.ok (doc.apply options)
  match afterFile with
  | Except.error e => Except.error e
  | Except.ok options =>
    match args with
    | CommandLine.help => Except.error (Exit.code 0)
    | CommandLine.invalid => Except.error (Exit.code 1)
    | CommandLine.parsed flags => Except.ok (flags.apply options)

/-! ## `cmd.go`: the rule files -/

/-- Lines 73-79 of `Main`: the forward rules of the file follow the ones in
memory. -/
def loadForwardRulesFile (fs : FileSystem) (options : Options) : Except Exit Options :=
  if options.ForwardRulesFile ≠ "" then
    match loadRulesFromFile fs options.ForwardRulesFile with
    | (_, some err) =>
      Except.error (Exit.fatal (FatalError.loadForwardRules options.ForwardRulesFile err))
    | (fileRules, none) =>
      Except.ok { options with ForwardRules := options.ForwardRules ++ fileRules }
  else Except.ok options

/-- Lines 81-87 of `Main`, for the DNS redirect rules. -/
def loadDNSRedirectRulesFile (fs : FileSystem) (options : Options) : Except Exit Options :=
  if options.DNSRedirectRulesFile ≠ "" then
    match loadRulesFromFile fs options.DNSRedirectRulesFile with
    | (_, some err) =>
      Except.error
        (Exit.fatal (FatalError.loadDNSRedirectRules options.DNSRedirectRulesFile err))
    | (fileRules, none) =>
      Except.ok { options with DNSRedirectRules := options.DNSRedirectRules ++ fileRules }
  else Except.ok options

/-- Lines 89-95 of `Main`, for the block rules. -/
def loadBlockRulesFile (fs : FileSystem) (options : Options) : Except Exit Options :=
  if options.BlockRulesFile ≠ "" then
    match loadRulesFromFile fs options.BlockRulesFile with
    | (_, some err) =>
      Except.error (Exit.fatal (FatalError.loadBlockRules options.BlockRulesFile err))
    | (fileRules, none) =>
      Except.ok { options with BlockRules := options.BlockRules ++ fileRules }
  else Except.ok options

/-- Lines 97-103 of `Main`, for the drop rules. -/
def loadDropRulesFile (fs : FileSystem) (options : Options) : Except Exit Options :=
  if options.DropRulesFile ≠ "" then
    match loadRulesFromFile fs options.DropRulesFile with
    | (_, some err) =>
      Except.error (Exit.fatal (FatalError.loadDropRules options.DropRulesFile err))
    | (fileRules, none) =>
      Except.ok { options with DropRules := options.DropRules ++ fileRules }
  else Except.ok options

/-- Lines 72-103 of `Main`: the four rule files, in the order of the source. -/
def loadRuleFiles (fs : FileSystem) (options : Options) : Except Exit Options :=
  loadForwardRulesFile fs options >>= loadDNSRedirectRulesFile fs >>=
    loadBlockRulesFile fs >>= loadDropRulesFile fs

/-- The file system with one file, of the given text, at the given path. -/
def oneFile (path : String) (text : String) : FileSystem :=
  fun p => if p = path then Except.ok { content := text.data, readErr := none }
    else Except.error (GoError.pathError "open" p ENOENT)

/-! ## `cmd.go`: the orchestrator -/

/-- An error reported by an engine. -/
abbrev EngineError := String

/-- The two engines as `run` meets them (`dnsproxy.New`, `sniproxy.New` and the
`Start` and `Close` methods of what they return, none of which is part of
`internal/cmd`): for each call the error it returns, `none` being nil. -/
structure Engines where
  dnsNew : DNSConfig → Option EngineError
  dnsStart : DNSConfig → Option EngineError
  dnsClose : DNSConfig → Option EngineError
  tunnelNew : TunnelConfig → Option EngineError
  tunnelStart : TunnelConfig → Option EngineError
  tunnelClose : TunnelConfig → Option EngineError

/-- The calls `run` makes on the engines, and its wait for a signal. -/
inductive Event where
  /-- The call `dnsproxy.New(cfg)`. -/
  | dnsNew (cfg : DNSConfig)
  /-- The call `dnsProxy.Start()`. -/
  | dnsStart
  /-- The call `gorao.New(cfg)`. -/
  | tunnelNew (cfg : TunnelConfig)
  /-- The call `gorao.Start()`. -/
  | tunnelStart
  /-- The receive `<-signalChannel`. -/
  | awaitSignal
  /-- The call `Close` on the DNS proxy, through `log.OnCloserError`. -/
  | dnsClose
  /-- The call `Close` on the tunnel proxy, through `log.OnCloserError`. -/
  | tunnelClose
  deriving DecidableEq, Repr

/-- How `run` ends: `log.Fatalf` of a translation, `check(err)` on the error of
an engine, or its return after the signal. -/
inductive RunEnd where
  | fatal (e : FatalError)
  | check (err : EngineError)
  | stopped
  deriving DecidableEq, Repr

/-- The function `newDNSProxy` of `cmd.go`: the calls it makes, and the proxy
(known by its configuration) or the end of the process. -/
def newDNSProxy (eng : Engines) (options : Options) : List Event × Except RunEnd DNSConfig :=
  match toDNSProxyConfig options with
  | Except.error e => ([], Except.error (RunEnd.fatal e))
  | Except.ok cfg =>
    match eng.dnsNew cfg with
    | some err => ([Event.dnsNew cfg], Except.error (RunEnd.check err))
    | none => ([Event.dnsNew cfg], Except.ok cfg)

/-- The function `newgorao` of `cmd.go`. -/
def newgorao (eng : Engines) (options : Options) : List Event × Except RunEnd TunnelConfig :=
  match togoraoConfig options with
  | Except.error e => ([], Except.error (RunEnd.fatal e))
  | Except.ok cfg =>
    match eng.tunnelNew cfg with
    | some err => ([Event.tunnelNew cfg], Except.error (RunEnd.check err))
    | none => ([Event.tunnelNew cfg], Except.ok cfg)

/-- The function `run` of `cmd.go`, for a process that receives its signal:
the calls made, in order, and how it ends. Errors of `Close` are logged only. -/
def run (eng : Engines) (options : Options) : List Event × RunEnd :=
  match newDNSProxy eng options with
  | (t1, Except.error e) => (t1, e)
  | (t1, Except.ok dnsProxy) =>
    match eng.dnsStart dnsProxy with
    | some err => (t1 ++ [Event.dnsStart], RunEnd.check err)
    | none =>
      match newgorao eng options with
      | (t2, Except.error e) => (t1 ++ [Event.dnsStart] ++ t2, e)
      | (t2, Except.ok gorao) =>
        match eng.tunnelStart gorao with
        | some err => (t1 ++ [Event.dnsStart] ++ t2 ++ [Event.tunnelStart], RunEnd.check err)
        | none =>
          (t1 ++ [Event.dnsStart] ++ t2 ++
            [Event.tunnelStart, Event.awaitSignal, Event.dnsClose, Event.tunnelClose],
            RunEnd.stopped)

/-- The engines whose every call succeeds. -/
def Engines.healthy : Engines where
  dnsNew := fun _ => none
  dnsStart := fun _ => none
  dnsClose := fun _ => none
  tunnelNew := fun _ => none
  tunnelStart := fun _ => none
  tunnelClose := fun _ => none

/-! ## Start-up order in the words of the specification -/

/-- Follows the spec (§4.4): the resolved settings fail validation when either
translation, to the DNSConfig or to the TunnelConfig, rejects them. -/
def failsValidation (options : Options) : Bool :=
  (toDNSProxyConfig options).toOption.isNone || (togoraoConfig options).toOption.isNone

/-- Follows the spec (§5, §4.5): the DNS engine was constructed or started when
the run called `dnsproxy.New` or `Start` on it. -/
def dnsEngineTouched (trace : List Event) : Bool :=
  trace.any (fun ev =>
    match ev with
    | Event.dnsNew _ => true
    | Event.dnsStart => true
    | _ => false)

/-! ## Address families in the words of the specification -/

/-- Follows the spec (§4.4, §8): a syntactically valid IPv4 address is a
dotted-decimal literal `a.b.c.d`, as opposed to an IPv6 literal. -/
def IsIPv4Literal (s : String) : Bool := (parseIPv4Fields s.data).isSome

/-- Follows the spec (§4.4, §8): a syntactically valid IPv6 address is a
literal in colon notation without a zone, as opposed to an IPv4 literal. -/
def IsIPv6Literal (s : String) : Bool :=
  s.data.all (fun c => c ≠ '%') && (parseIPv6Bytes s.data).isSome

/-! ## The rule list in the words of the specification -/

/-- Follows the spec (§4.2): each line is trimmed of surrounding whitespace,
lines that are then empty or begin with `#` are skipped, all other lines are
kept in file order. -/
def rulesOfLines (lines : List String) : List String :=
  (lines.map TrimSpace).filter (fun line => line ≠ "" ∧ line.data.head? ≠ some '#')

/-! ## Values named in the statements -/

/-- The settings after the rule-file step: each of the four rule lists is
followed by the rules its file gives. -/
def mergedRules (fs : FileSystem) (o : Options) : Options :=
  { o with
    ForwardRules := o.ForwardRules ++ (loadRulesFromFile fs o.ForwardRulesFile).1
    DNSRedirectRules := o.DNSRedirectRules ++ (loadRulesFromFile fs o.DNSRedirectRulesFile).1
    BlockRules := o.BlockRules ++ (loadRulesFromFile fs o.BlockRulesFile).1
    DropRules := o.DropRules ++ (loadRulesFromFile fs o.DropRulesFile).1 }

/-- The configuration `toDNSProxyConfig` builds from its intermediate values. -/
def dnsConfigOf (options : Options) (addr : Addr) (tls https quic : AddrPort)
    (r4 r6 : IP) : DNSConfig where
  ListenAddr := AddrPortFrom addr (uint16 options.DNSPort)
  TLSListenAddr := tls
  HTTPSListenAddr := https
  QUICListenAddr := quic
  TLSCertFile := options.TLSCertFile
  TLSKeyFile := options.TLSKeyFile
  Upstream := options.DNSUpstream
  RedirectRules := options.DNSRedirectRules
  DropRules := options.DNSDropRules
  RedirectIPv4To := r4
  RedirectIPv6To := r6
  CacheEnabled := options.DNSCacheEnabled
  CacheSizeBytes := options.DNSCacheSizeBytes
  CacheMinTTL := options.DNSCacheMinTTL
  CacheMaxTTL := options.DNSCacheMaxTTL

/-! ## Facts about the translation to the DNS configuration -/

/-- `toDNSProxyConfig` succeeds exactly when each of its steps does, and then
gives the configuration built from their values. -/
theorem toDNSProxyConfig_ok_iff (o : Options) (cfg : DNSConfig) :
    toDNSProxyConfig o = Except.ok cfg ↔
      ∃ addr tls https quic r4 r6,
        ParseAddr o.DNSListenAddress = some addr ∧
        optionalListener o.DOTListenAddress o.DOTPort = Except.ok tls ∧
        optionalListener o.DOHListenAddress o.DOHPort = Except.ok https ∧
        optionalListener o.DOQListenAddress o.DOQPort = Except.ok quic ∧
        redirectIPv4 o = Except.ok r4 ∧ redirectIPv6 o = Except.ok r6 ∧
        ¬ (r4 = [] ∧ r6 = []) ∧ cfg = dnsConfigOf o addr tls https quic r4 r6 := by
  unfold toDNSProxyConfig
  cases h0 : ParseAddr o.DNSListenAddress with
  | none => simp
  | some addr =>
    cases h1 : optionalListener o.DOTListenAddress o.DOTPort with
    | error e => simp
    | ok tls =>
      cases h2 : optionalListener o.DOHListenAddress o.DOHPort with
      | error e => simp
      | ok https =>
        cases h3 : optionalListener o.DOQListenAddress o.DOQPort with
        | error e => simp
        | ok quic =>
          cases h4 : redirectIPv4 o with
          | error e => simp
          | ok r4 =>
            cases h5 : redirectIPv6 o with
            | error e => simp
            | ok r6 =>
              by_cases h6 : r4 = [] ∧ r6 = []
              · simp [h6]
              · simp only [h6, if_false, Except.ok.injEq, Option.some.injEq]
                constructor
                · intro h
                  exact ⟨addr, tls, https, quic, r4, r6, rfl, rfl, rfl, rfl, rfl, rfl,
                    h6, h.symm⟩
                · rintro ⟨a, t, hs, q, x4, x6, ha, ht, hh, hq, h4', h5', -, hc⟩
                  cases ha; cases ht; cases hh; cases hq; cases h4'; cases h5'
                  exact hc.symm

/-- An optional listener is either left at the zero value, when the address is
empty or the port zero, or built from the parsed address. -/
theorem optionalListener_ok_iff (address : String) (port : Int) (ap : AddrPort) :
    optionalListener address port = Except.ok ap ↔
      ((address = "" ∨ port = 0) ∧ ap = AddrPort.zero) ∨
      (address ≠ "" ∧ port ≠ 0 ∧
        ∃ addr, ParseAddr address = some addr ∧ ap = AddrPortFrom addr (uint16 port)) := by
  unfold optionalListener
  by_cases h : address ≠ "" ∧ port ≠ 0
  · rw [if_pos h]
    cases hp : ParseAddr address with
    | none => simp [h.1, h.2]
    | some addr =>
      simp only [Except.ok.injEq, h.1, h.2, false_or, false_and, ne_eq, not_false_eq_true,
        true_and, Option.some.injEq, exists_eq_left']
      exact eq_comm
  · rw [if_neg h]
    have h' : address = "" ∨ port = 0 := by
      by_contra hc
      push_neg at hc
      exact h hc
    simp only [Except.ok.injEq, h', true_and]
    constructor
    · intro e; exact Or.inl e.symm
    · rintro (e | ⟨h1, h2, -⟩)
      · exact e.symm
      · exact absurd ⟨h1, h2⟩ h

theorem redirectIPv4_empty (o : Options) (h : o.DNSRedirectIPV4To = "") :
    redirectIPv4 o = Except.ok [] := by
  simp [redirectIPv4, h]

theorem redirectIPv6_empty (o : Options) (h : o.DNSRedirectIPV6To = "") :
    redirectIPv6 o = Except.ok [] := by
  simp [redirectIPv6, h]

/-- An optional listener whose address parses whenever it is activated is
accepted. -/
theorem optionalListener_ok_of_parses (address : String) (port : Int)
    (h : address ≠ "" → port ≠ 0 → (ParseAddr address).isSome) :
    ∃ ap, optionalListener address port = Except.ok ap := by
  unfold optionalListener
  by_cases hc : address ≠ "" ∧ port ≠ 0
  · rw [if_pos hc]
    have hs := h hc.1 hc.2
    cases hp : ParseAddr address with
    | none => rw [hp] at hs; exact absurd hs (by decide)
    | some addr => exact ⟨_, rfl⟩
  · rw [if_neg hc]
    exact ⟨_, rfl⟩

/-- C1: when dns-redirect-ipv4-to and dns-redirect-ipv6-to are both empty,
`toDNSProxyConfig` fails whatever the other settings are (with the error "no
redirect target" when the listen addresses are valid); and when the DNS listen
address and the address of every activated secure listener parse, settings with
only dns-redirect-ipv4-to = "203.0.113.5" supplied are accepted. -/
theorem C1_redirect_target_required :
    (∀ o : Options, o.DNSRedirectIPV4To = "" → o.DNSRedirectIPV6To = "" →
      ∃ e, toDNSProxyConfig o = Except.error e) ∧
    (∀ o : Options, o.DNSRedirectIPV4To = "" → o.DNSRedirectIPV6To = "" →
      (ParseAddr o.DNSListenAddress).isSome →
      (o.DOTListenAddress ≠ "" → o.DOTPort ≠ 0 → (ParseAddr o.DOTListenAddress).isSome) →
      (o.DOHListenAddress ≠ "" → o.DOHPort ≠ 0 → (ParseAddr o.DOHListenAddress).isSome) →
      (o.DOQListenAddress ≠ "" → o.DOQPort ≠ 0 → (ParseAddr o.DOQListenAddress).isSome) →
      toDNSProxyConfig o = Except.error FatalError.noRedirectTarget) ∧
    (∀ o : Options, o.DNSRedirectIPV4To = "203.0.113.5" → o.DNSRedirectIPV6To = "" →
      (ParseAddr o.DNSListenAddress).isSome →
      (o.DOTListenAddress ≠ "" → o.DOTPort ≠ 0 → (ParseAddr o.DOTListenAddress).isSome) →
      (o.DOHListenAddress ≠ "" → o.DOHPort ≠ 0 → (ParseAddr o.DOHListenAddress).isSome) →
      (o.DOQListenAddress ≠ "" → o.DOQPort ≠ 0 → (ParseAddr o.DOQListenAddress).isSome) →
      ∃ cfg, toDNSProxyConfig o = Except.ok cfg ∧
        cfg.RedirectIPv4To = IPv4 203 0 113 5 ∧ cfg.RedirectIPv6To = []) := by
  refine ⟨?_, ?_, ?_⟩
  · intro o h4 h6
    cases h : toDNSProxyConfig o with
    | error e => exact ⟨e, rfl⟩
    | ok cfg =>
      obtain ⟨addr, tls, https, quic, r4, r6, -, -, -, -, e4, e6, hne, -⟩ :=
        (toDNSProxyConfig_ok_iff o cfg).1 h
      rw [redirectIPv4_empty o h4] at e4
      rw [redirectIPv6_empty o h6] at e6
      cases e4; cases e6
      exact absurd ⟨rfl, rfl⟩ hne
  · intro o h4 h6 hd ht hh hq
    obtain ⟨tls, e1⟩ := optionalListener_ok_of_parses _ _ ht
    obtain ⟨https, e2⟩ := optionalListener_ok_of_parses _ _ hh
    obtain ⟨quic, e3⟩ := optionalListener_ok_of_parses _ _ hq
    obtain ⟨addr, e0⟩ := Option.isSome_iff_exists.1 hd
    simp [toDNSProxyConfig, e0, e1, e2, e3, redirectIPv4_empty o h4,
      redirectIPv6_empty o h6]
  · intro o h4 h6 hd ht hh hq
    obtain ⟨tls, e1⟩ := optionalListener_ok_of_parses _ _ ht
    obtain ⟨https, e2⟩ := optionalListener_ok_of_parses _ _ hh
    obtain ⟨quic, e3⟩ := optionalListener_ok_of_parses _ _ hq
    obtain ⟨addr, e0⟩ := Option.isSome_iff_exists.1 hd
    have e4 : redirectIPv4 o = Except.ok (IPv4 203 0 113 5) := by
      unfold redirectIPv4
      rw [h4]
      decide
    refine ⟨dnsConfigOf o addr tls https quic (IPv4 203 0 113 5) [], ?_, rfl, rfl⟩
    refine (toDNSProxyConfig_ok_iff o _).2
      ⟨addr, tls, https, quic, _, _, e0, e1, e2, e3, e4, redirectIPv6_empty o h6, ?_, rfl⟩
    decide

/-- Witness of C1: the defaults alone are refused for want of a redirect
target, the defaults with dns-redirect-ipv4-to = "203.0.113.5" are accepted. -/
theorem C1_redirect_target_required_witness :
    (∃ e, toDNSProxyConfig DefaultOptions = Except.error e) ∧
    toDNSProxyConfig DefaultOptions = Except.error FatalError.noRedirectTarget ∧
    (∃ cfg, toDNSProxyConfig { DefaultOptions with DNSRedirectIPV4To := "203.0.113.5" } =
        Except.ok cfg ∧
      cfg.RedirectIPv4To = IPv4 203 0 113 5 ∧ cfg.RedirectIPv6To = []) :=
  ⟨C1_redirect_target_required.1 DefaultOptions rfl rfl,
   C1_redirect_target_required.2.1 DefaultOptions rfl rfl (by decide) (by decide)
     (by decide) (by decide),
   C1_redirect_target_required.2.2 { DefaultOptions with DNSRedirectIPV4To := "203.0.113.5" }
     rfl rfl (by decide) (by decide) (by decide) (by decide)⟩

/-- An address built by `netip.ParseAddr` is never the zero `Addr`. -/
theorem ParseAddr_ne_zero (s : String) : ParseAddr s ≠ some Addr.zero := by
  have key : ∀ l t : List Char, parseAddrScan l t ≠ some Addr.zero := by
    intro l t
    induction t with
    | nil => simp [parseAddrScan]
    | cons c rest ih =>
      unfold parseAddrScan
      split_ifs
      · cases parseIPv4Fields l <;> simp
      · unfold parseIPv6
        split
        · cases parseIPv6Bytes _ <;> simp
        · split_ifs
          · simp
          · cases parseIPv6Bytes _ <;> simp
      · simp
      · exact ih
  exact key _ _

/-- An accepted optional listener is the zero `AddrPort` exactly when its
address is empty or its port zero. -/
theorem optionalListener_zero_iff (address : String) (port : Int) (ap : AddrPort)
    (h : optionalListener address port = Except.ok ap) :
    ap = AddrPort.zero ↔ (address = "" ∨ port = 0) := by
  rcases (optionalListener_ok_iff address port ap).1 h with ⟨hd, rfl⟩ | ⟨ha, hp, addr, hpa, rfl⟩
  · simp [hd]
  · constructor
    · intro hz
      have : addr = Addr.zero := congrArg AddrPort.ip hz
      rw [this] at hpa
      exact absurd hpa (ParseAddr_ne_zero address)
    · rintro (h1 | h1)
      · exact absurd h1 ha
      · exact absurd h1 hp

theorem optionalListener_empty (port : Int) :
    optionalListener "" port = Except.ok AddrPort.zero := by
  simp [optionalListener]

theorem optionalListener_port_zero (address : String) :
    optionalListener address 0 = Except.ok AddrPort.zero := by
  simp [optionalListener]

/-- C4: for an accepted settings value each of the DoT, DoH and DoQ listen
addresses of the DNSConfig is the zero AddrPort if and only if that listener's
address setting is empty or its port setting is zero; and emptying the address
or zeroing the port of a listener in an accepted settings value gives an
accepted settings value again, with that listener at the zero value and the
rest of the configuration unchanged: a disabled listener is never an error.
With DoT address "0.0.0.0" and DoT port 0 the DoT listener is disabled. -/
theorem C4_optional_listeners :
    (∀ (o : Options) (cfg : DNSConfig), toDNSProxyConfig o = Except.ok cfg →
      (cfg.TLSListenAddr = AddrPort.zero ↔ (o.DOTListenAddress = "" ∨ o.DOTPort = 0)) ∧
      (cfg.HTTPSListenAddr = AddrPort.zero ↔ (o.DOHListenAddress = "" ∨ o.DOHPort = 0)) ∧
      (cfg.QUICListenAddr = AddrPort.zero ↔ (o.DOQListenAddress = "" ∨ o.DOQPort = 0))) ∧
    (∀ (o : Options) (cfg : DNSConfig), toDNSProxyConfig o = Except.ok cfg →
      toDNSProxyConfig { o with DOTListenAddress := "" } =
        Except.ok { cfg with TLSListenAddr := AddrPort.zero } ∧
      toDNSProxyConfig { o with DOTPort := 0 } =
        Except.ok { cfg with TLSListenAddr := AddrPort.zero } ∧
      toDNSProxyConfig { o with DOHListenAddress := "" } =
        Except.ok { cfg with HTTPSListenAddr := AddrPort.zero } ∧
      toDNSProxyConfig { o with DOHPort := 0 } =
        Except.ok { cfg with HTTPSListenAddr := AddrPort.zero } ∧
      toDNSProxyConfig { o with DOQListenAddress := "" } =
        Except.ok { cfg with QUICListenAddr := AddrPort.zero } ∧
      toDNSProxyConfig { o with DOQPort := 0 } =
        Except.ok { cfg with QUICListenAddr := AddrPort.zero }) ∧
    (∃ cfg, toDNSProxyConfig { DefaultOptions with
        DNSRedirectIPV4To := "203.0.113.5", DOTListenAddress := "0.0.0.0", DOTPort := 0 } =
          Except.ok cfg ∧ cfg.TLSListenAddr = AddrPort.zero) := by
  refine ⟨?_, ?_, ?_⟩
  · intro o cfg h
    obtain ⟨addr, tls, https, quic, r4, r6, -, e1, e2, e3, -, -, -, rfl⟩ :=
      (toDNSProxyConfig_ok_iff o cfg).1 h
    exact ⟨optionalListener_zero_iff _ _ _ e1, optionalListener_zero_iff _ _ _ e2,
      optionalListener_zero_iff _ _ _ e3⟩
  · intro o cfg h
    obtain ⟨addr, tls, https, quic, r4, r6, e0, e1, e2, e3, e4, e5, hne, rfl⟩ :=
      (toDNSProxyConfig_ok_iff o cfg).1 h
    refine ⟨?_, ?_, ?_, ?_, ?_, ?_⟩
    · exact (toDNSProxyConfig_ok_iff _ _).2 ⟨addr, AddrPort.zero, https, quic, r4, r6, e0,
        optionalListener_empty _, e2, e3, e4, e5, hne, rfl⟩
    · exact (toDNSProxyConfig_ok_iff _ _).2 ⟨addr, AddrPort.zero, https, quic, r4, r6, e0,
        optionalListener_port_zero _, e2, e3, e4, e5, hne, rfl⟩
    · exact (toDNSProxyConfig_ok_iff _ _).2 ⟨addr, tls, AddrPort.zero, quic, r4, r6, e0,
        e1, optionalListener_empty _, e3, e4, e5, hne, rfl⟩
    · exact (toDNSProxyConfig_ok_iff _ _).2 ⟨addr, tls, AddrPort.zero, quic, r4, r6, e0,
        e1, optionalListener_port_zero _, e3, e4, e5, hne, rfl⟩
    · exact (toDNSProxyConfig_ok_iff _ _).2 ⟨addr, tls, https, AddrPort.zero, r4, r6, e0,
        e1, e2, optionalListener_empty _, e4, e5, hne, rfl⟩
    · exact (toDNSProxyConfig_ok_iff _ _).2 ⟨addr, tls, https, AddrPort.zero, r4, r6, e0,
        e1, e2, optionalListener_port_zero _, e4, e5, hne, rfl⟩
  · exact ⟨dnsConfigOf { DefaultOptions with
        DNSRedirectIPV4To := "203.0.113.5", DOTListenAddress := "0.0.0.0", DOTPort := 0 }
      (Addr.v4 [0, 0, 0, 0]) AddrPort.zero (AddrPortFrom (Addr.v4 [0, 0, 0, 0]) 8443)
      (AddrPortFrom (Addr.v4 [0, 0, 0, 0]) 8853) (IPv4 203 0 113 5) [], by decide, rfl⟩

/-- Witness of C4, at the defaults with dns-redirect-ipv4-to = "203.0.113.5":
the three listeners are activated there, and DoT is disabled by port 0. -/
theorem C4_optional_listeners_witness :
    (∃ cfg, toDNSProxyConfig { DefaultOptions with DNSRedirectIPV4To := "203.0.113.5" } =
        Except.ok cfg ∧
      cfg.TLSListenAddr = AddrPortFrom (Addr.v4 [0, 0, 0, 0]) 853 ∧
      ¬ cfg.TLSListenAddr = AddrPort.zero ∧
      toDNSProxyConfig { DefaultOptions with
          DNSRedirectIPV4To := "203.0.113.5", DOTPort := 0 } =
        Except.ok { cfg with TLSListenAddr := AddrPort.zero }) := by
  have h : toDNSProxyConfig { DefaultOptions with DNSRedirectIPV4To := "203.0.113.5" } =
      Except.ok (dnsConfigOf { DefaultOptions with DNSRedirectIPV4To := "203.0.113.5" }
        (Addr.v4 [0, 0, 0, 0]) (AddrPortFrom (Addr.v4 [0, 0, 0, 0]) 853)
        (AddrPortFrom (Addr.v4 [0, 0, 0, 0]) 8443)
        (AddrPortFrom (Addr.v4 [0, 0, 0, 0]) 8853) (IPv4 203 0 113 5) []) := by decide
  refine ⟨_, h, rfl, ?_, (C4_optional_listeners.2.1 _ _ h).2.1⟩
  have hz := (C4_optional_listeners.1 _ _ h).1
  intro hc
  exact absurd (hz.1 hc) (by decide)

/-! ## Facts about the translation to the tunnel configuration -/

/-- C8: `togoraoConfig` fails if and only if tls-address or http-address does
not parse as an IP literal (`net.ParseIP` gives nil); otherwise it succeeds
with the TLS listener (parsed tls-address, tls-port) and the HTTP listener
(parsed http-address, http-port), the ports being the integers of the settings
unchanged, and with ForwardProxy, ForwardRules, BlockRules, DropRules and
BandwidthRate equal to the settings' values. -/
theorem C8_tunnel_config (o : Options) :
    ((∃ e, togoraoConfig o = Except.error e) ↔
      (ParseIP o.TLSListenAddress = [] ∨ ParseIP o.HTTPListenAddress = [])) ∧
    (ParseIP o.TLSListenAddress ≠ [] → ParseIP o.HTTPListenAddress ≠ [] →
      togoraoConfig o = Except.ok {
        TLSListenAddr := { IP := ParseIP o.TLSListenAddress, Port := o.TLSPort }
        HTTPListenAddr := { IP := ParseIP o.HTTPListenAddress, Port := o.HTTPPort }
        ForwardProxy := o.ForwardProxy
        ForwardRules := o.ForwardRules
        BlockRules := o.BlockRules
        DropRules := o.DropRules
        BandwidthRate := o.BandwidthRate }) := by
  unfold togoraoConfig
  by_cases h1 : ParseIP o.TLSListenAddress = []
  · simp [h1]
  · by_cases h2 : ParseIP o.HTTPListenAddress = []
    · simp [h1, h2]
    · simp [h1, h2]

/-- Witness of C8: with tls-address "192.0.2.1", tls-port 70000, http-address
"::1" and http-port -1 the tunnel configuration carries exactly these ports;
with tls-address "localhost" the translation fails. -/
theorem C8_tunnel_config_witness :
    togoraoConfig { DefaultOptions with
        TLSListenAddress := "192.0.2.1", TLSPort := 70000,
        HTTPListenAddress := "::1", HTTPPort := -1,
        ForwardProxy := "socks5://127.0.0.1:1080", ForwardRules := ["a.*"],
        BlockRules := ["b.*", "b.*"], DropRules := ["c.*"], BandwidthRate := 7 } =
      Except.ok {
        TLSListenAddr := { IP := IPv4 192 0 2 1, Port := 70000 }
        HTTPListenAddr := { IP := [0, 0, 0, 0, 0, 0, 0, 0, 0, 0, 0, 0, 0, 0, 0, 1], Port := -1 }
        ForwardProxy := "socks5://127.0.0.1:1080"
        ForwardRules := ["a.*"]
        BlockRules := ["b.*", "b.*"]
        DropRules := ["c.*"]
        BandwidthRate := 7 } ∧
    (∃ e, togoraoConfig { DefaultOptions with TLSListenAddress := "localhost" } =
      Except.error e) :=
  ⟨(C8_tunnel_config { DefaultOptions with
        TLSListenAddress := "192.0.2.1", TLSPort := 70000,
        HTTPListenAddress := "::1", HTTPPort := -1,
        ForwardProxy := "socks5://127.0.0.1:1080", ForwardRules := ["a.*"],
        BlockRules := ["b.*", "b.*"], DropRules := ["c.*"], BandwidthRate := 7 }).2
      (by decide) (by decide),
   (C8_tunnel_config { DefaultOptions with TLSListenAddress := "localhost" }).1.2
      (Or.inl (by decide))⟩

/-! ## The end-to-end scenario -/

/-- C9: the defaults with only dns-redirect-ipv4-to set to "203.0.113.5" (and
tls-address, http-address "0.0.0.0") are accepted by both translations: the
DNSConfig has RedirectIPv4To 203.0.113.5, listen address 0.0.0.0 port 53,
the cache enabled with 67108864 bytes and TTL bounds 60 and 3600; the tunnel
configuration listens on 0.0.0.0:443 for TLS and 0.0.0.0:80 for HTTP. For every
accepted settings value the four cache settings are copied unchanged. -/
theorem C9_end_to_end :
    (∃ cfg, toDNSProxyConfig { DefaultOptions with
        DNSRedirectIPV4To := "203.0.113.5", TLSListenAddress := "0.0.0.0",
        HTTPListenAddress := "0.0.0.0" } = Except.ok cfg ∧
      cfg.RedirectIPv4To = IPv4 203 0 113 5 ∧ To4 cfg.RedirectIPv4To = [203, 0, 113, 5] ∧
      cfg.ListenAddr = { ip := Addr.v4 [0, 0, 0, 0], port := 53 } ∧
      cfg.CacheEnabled = true ∧ cfg.CacheSizeBytes = 67108864 ∧
      cfg.CacheMinTTL = 60 ∧ cfg.CacheMaxTTL = 3600) ∧
    (∃ tun, togoraoConfig { DefaultOptions with
        DNSRedirectIPV4To := "203.0.113.5", TLSListenAddress := "0.0.0.0",
        HTTPListenAddress := "0.0.0.0" } = Except.ok tun ∧
      tun.TLSListenAddr = { IP := IPv4 0 0 0 0, Port := 443 } ∧
      tun.HTTPListenAddr = { IP := IPv4 0 0 0 0, Port := 80 }) ∧
    (resolveOptions (ConfigFile.document Source.empty)
        (CommandLine.parsed { Source.empty with
          DNSRedirectIPV4To := some "203.0.113.5", TLSListenAddress := some "0.0.0.0",
          HTTPListenAddress := some "0.0.0.0" }) =
      Except.ok { DefaultOptions with
        DNSRedirectIPV4To := "203.0.113.5", TLSListenAddress := "0.0.0.0",
        HTTPListenAddress := "0.0.0.0" }) ∧
    (∀ (o : Options) (cfg : DNSConfig), toDNSProxyConfig o = Except.ok cfg →
      cfg.CacheEnabled = o.DNSCacheEnabled ∧ cfg.CacheSizeBytes = o.DNSCacheSizeBytes ∧
      cfg.CacheMinTTL = o.DNSCacheMinTTL ∧ cfg.CacheMaxTTL = o.DNSCacheMaxTTL) := by
  refine ⟨?_, ?_, by decide, ?_⟩
  · exact ⟨dnsConfigOf { DefaultOptions with
        DNSRedirectIPV4To := "203.0.113.5", TLSListenAddress := "0.0.0.0",
        HTTPListenAddress := "0.0.0.0" }
      (Addr.v4 [0, 0, 0, 0]) (AddrPortFrom (Addr.v4 [0, 0, 0, 0]) 853)
      (AddrPortFrom (Addr.v4 [0, 0, 0, 0]) 8443)
      (AddrPortFrom (Addr.v4 [0, 0, 0, 0]) 8853) (IPv4 203 0 113 5) [],
      by decide, rfl, by decide, by decide, rfl, by decide, rfl, rfl⟩
  · exact ⟨{
        TLSListenAddr := { IP := IPv4 0 0 0 0, Port := 443 }
        HTTPListenAddr := { IP := IPv4 0 0 0 0, Port := 80 }
        ForwardProxy := ""
        ForwardRules := []
        BlockRules := []
        DropRules := []
        BandwidthRate := 0 }, by decide, rfl, rfl⟩
  · intro o cfg h
    obtain ⟨addr, tls, https, quic, r4, r6, -, -, -, -, -, -, -, rfl⟩ :=
      (toDNSProxyConfig_ok_iff o cfg).1 h
    exact ⟨rfl, rfl, rfl, rfl⟩

/-- Witness of C9: a settings value with cache settings far from the defaults
(cache off, negative size, minimum TTL above the maximum) is accepted and the
four values arrive unchanged. -/
theorem C9_end_to_end_witness :
    ∃ cfg, toDNSProxyConfig { DefaultOptions with
        DNSRedirectIPV4To := "203.0.113.5", DNSCacheEnabled := false,
        DNSCacheSizeBytes := -5, DNSCacheMinTTL := 9000, DNSCacheMaxTTL := 1 } =
        Except.ok cfg ∧
      cfg.CacheEnabled = false ∧ cfg.CacheSizeBytes = -5 ∧
      cfg.CacheMinTTL = 9000 ∧ cfg.CacheMaxTTL = 1 :=
  have h : toDNSProxyConfig { DefaultOptions with
        DNSRedirectIPV4To := "203.0.113.5", DNSCacheEnabled := false,
        DNSCacheSizeBytes := -5, DNSCacheMinTTL := 9000, DNSCacheMaxTTL := 1 } =
      Except.ok (dnsConfigOf { DefaultOptions with
        DNSRedirectIPV4To := "203.0.113.5", DNSCacheEnabled := false,
        DNSCacheSizeBytes := -5, DNSCacheMinTTL := 9000, DNSCacheMaxTTL := 1 }
      (Addr.v4 [0, 0, 0, 0]) (AddrPortFrom (Addr.v4 [0, 0, 0, 0]) 853)
      (AddrPortFrom (Addr.v4 [0, 0, 0, 0]) 8443)
      (AddrPortFrom (Addr.v4 [0, 0, 0, 0]) 8853) (IPv4 203 0 113 5) []) := by decide
  ⟨_, h, C9_end_to_end.2.2.2 _ _ h⟩

/-! ## Precedence of the sources -/

/-- Two overwrites in a row, read through an injection into `Value`. -/
theorem getD_getD_eq_match {α : Type} (f : α → Value) (a b : Option α) (d : α) :
    f (a.getD (b.getD d)) =
      match a.map f with
      | some v => v
      | none =>
        match b.map f with
        | some v => v
        | none => f d := by
  cases a <;> cases b <;> rfl

/-- One overwrite, read through an injection into `Value`. -/
theorem getD_eq_match {α : Type} (f : α → Value) (a : Option α) (d : α) :
    f (a.getD d) =
      match a.map f with
      | some v => v
      | none => f d := by
  cases a <;> rfl

/-- C10: precedence is per setting, defaults below the YAML file below the
flags. For every setting S, the resolved value is the value the flags give for
S when they give one, else the value the YAML document gives when it gives one,
else the default of `DefaultOptions`; without a readable configuration file it
is the flag value when there is one, else the default. -/
theorem C10_source_precedence (S : Setting) :
    (∀ doc flags : Source, ∃ r,
      resolveOptions (ConfigFile.document doc) (CommandLine.parsed flags) = Except.ok r ∧
      r.get S =
        match flags.get S with
        | some v => v
        | none =>
          match doc.get S with
          | some v => v
          | none => DefaultOptions.get S) ∧
    (∀ flags : Source, ∃ r,
      resolveOptions ConfigFile.unreadable (CommandLine.parsed flags) = Except.ok r ∧
      r.get S =
        match flags.get S with
        | some v => v
        | none => DefaultOptions.get S) := by
  constructor
  · intro doc flags
    refine ⟨flags.apply (doc.apply DefaultOptions), rfl, ?_⟩
    cases S <;> exact getD_getD_eq_match _ _ _ _
  · intro flags
    refine ⟨flags.apply DefaultOptions, rfl, ?_⟩
    cases S <;> exact getD_eq_match _ _ _

/-! ## Facts about the rule file loader -/

theorem HasPrefix_hash (s : String) : HasPrefix s "#" = true ↔ s.data.head? = some '#' := by
  unfold HasPrefix
  show List.isPrefixOf ['#'] s.data = true ↔ _
  cases s.data with
  | nil => simp [List.isPrefixOf]
  | cons c t =>
    simp only [List.isPrefixOf, Bool.and_true, beq_iff_eq, List.head?_cons, Option.some.injEq]
    exact eq_comm

/-- The loop of the loader appends to the rules built so far the rule list of
the specification. -/
theorem loadLoop_eq (lines rules : List String) :
    loadLoop lines rules = rules ++ rulesOfLines lines := by
  induction lines generalizing rules with
  | nil => simp [loadLoop, rulesOfLines]
  | cons text rest ih =>
    unfold loadLoop
    by_cases h : TrimSpace text = "" ∨ HasPrefix (TrimSpace text) "#" = true
    · simp only [h, if_true]
      rw [ih]
      have hk : ¬ (TrimSpace text ≠ "" ∧ (TrimSpace text).data.head? ≠ some '#') := by
        rw [HasPrefix_hash] at h
        tauto
      simp [rulesOfLines, List.filter_cons, hk] at *
    · simp only [h, if_false]
      rw [ih]
      have hk : TrimSpace text ≠ "" ∧ (TrimSpace text).data.head? ≠ some '#' := by
        rw [HasPrefix_hash] at h
        tauto
      simp [rulesOfLines, List.filter_cons, hk] at *

/-- The result of `TrimSpace` does not begin with white space. -/
theorem TrimSpace_head (s : String) (c : Char)
    (h : (TrimSpace s).data.head? = some c) : IsSpace c = false := by
  have hpre : (s.data.dropWhile IsSpace).rdropWhile IsSpace <+: s.data.dropWhile IsSpace :=
    List.rdropWhile_prefix IsSpace (s.data.dropWhile IsSpace)
  obtain ⟨t, ht⟩ := hpre
  have hd : (TrimSpace s).data = (s.data.dropWhile IsSpace).rdropWhile IsSpace := rfl
  rw [hd] at h
  have h2 : (s.data.dropWhile IsSpace).head? = some c := by
    rw [← ht]
    cases hm : (s.data.dropWhile IsSpace).rdropWhile IsSpace with
    | nil => rw [hm] at h; simp at h
    | cons a m => rw [hm] at h; simpa using h
  have h3 := List.head?_dropWhile_not IsSpace s.data
  rw [h2] at h3
  exact h3

/-- The result of `TrimSpace` does not end with white space. -/
theorem TrimSpace_getLast (s : String) (c : Char)
    (h : (TrimSpace s).data.getLast? = some c) : IsSpace c = false := by
  have hd : (TrimSpace s).data = (s.data.dropWhile IsSpace).rdropWhile IsSpace := rfl
  rw [hd] at h
  have hne : (s.data.dropWhile IsSpace).rdropWhile IsSpace ≠ [] := by
    intro hc
    rw [hc] at h
    simp at h
  have h1 := List.rdropWhile_last_not IsSpace (s.data.dropWhile IsSpace) hne
  rw [List.getLast?_eq_getLast _ hne] at h
  cases h
  simpa using h1

/-- The scanner reports a read error of the file, or `ErrTooLong` before it. -/
theorem scanLoop_readErr (err : GoError) (data cur : List Char) :
    (scanLoop (some err) data cur).2 = some err ∨
      (scanLoop (some err) data cur).2 = some GoError.errTooLong := by
  induction data generalizing cur with
  | nil =>
    unfold scanLoop
    split_ifs <;> simp
  | cons c rest ih =>
    unfold scanLoop
    split_ifs
    · right; rfl
    · exact ih []
    · exact ih _

/-- A text holding fewer bytes than the scanner's buffer is scanned without
`ErrTooLong`: the scanner's error is the one that ended the reads. -/
theorem scanLoop_short (final : Option GoError) (data cur : List Char)
    (h : byteLen cur + byteLen data < MaxScanTokenSize) :
    (scanLoop final data cur).2 = final := by
  induction data generalizing cur with
  | nil =>
    unfold scanLoop
    have hc : ¬ byteLen cur ≥ MaxScanTokenSize := by
      simp only [byteLen, List.map_nil, List.sum_nil, Nat.add_zero] at h
      simpa [byteLen] using h
    split_ifs <;> rfl
  | cons c rest ih =>
    unfold scanLoop
    have hcons : byteLen (c :: rest) = c.utf8Size + byteLen rest := by
      simp [byteLen]
    have hc : ¬ byteLen cur ≥ MaxScanTokenSize := by
      rw [hcons] at h
      omega
    split_ifs
    · apply ih
      rw [hcons] at h
      have : byteLen ([] : List Char) = 0 := rfl
      omega
    · apply ih
      have happ : byteLen (cur ++ [c]) = byteLen cur + c.utf8Size := by
        simp [byteLen]
      rw [hcons] at h
      omega

/-- C5: for every file that is opened and scanned without error,
`loadRulesFromFile` returns exactly the file's lines, in order, each trimmed of
surrounding white space, without the lines that are then empty or begin with
`#` (so duplicates stay); no returned rule is empty, begins with `#`, or begins
or ends with white space, and the rules are a subsequence of the trimmed lines. -/
theorem C5_loader_output (fs : FileSystem) (filePath : String) (file : File)
    (hp : filePath ≠ "") (ho : fs filePath = Except.ok file)
    (hs : (scanLines file).2 = none) :
    loadRulesFromFile fs filePath = (rulesOfLines (scanLines file).1, none) ∧
    (∀ r ∈ (loadRulesFromFile fs filePath).1,
      r ≠ "" ∧ r.data.head? ≠ some '#' ∧
      (∀ c, r.data.head? = some c → IsSpace c = false) ∧
      (∀ c, r.data.getLast? = some c → IsSpace c = false)) ∧
    List.Sublist (loadRulesFromFile fs filePath).1 ((scanLines file).1.map TrimSpace) := by
  have h : loadRulesFromFile fs filePath = (rulesOfLines (scanLines file).1, none) := by
    unfold loadRulesFromFile
    rw [if_neg hp, ho]
    simp only [hs, loadLoop_eq, List.nil_append]
  rw [h]
  refine ⟨rfl, ?_, ?_⟩
  · intro r hr
    simp only [rulesOfLines, List.mem_filter, List.mem_map, decide_eq_true_eq] at hr
    obtain ⟨⟨text, -, rfl⟩, h1, h2⟩ := hr
    exact ⟨h1, h2, TrimSpace_head text, TrimSpace_getLast text⟩
  · exact List.filter_sublist _

/-- Witness of C5: a file of five lines, with a comment, a blank line, a
carriage return, surrounding blanks and a repeated rule. -/
theorem C5_loader_output_witness :
    loadRulesFromFile (oneFile "rules.csv" "  a.* \r\n# note\n\nb.*\t\na.*") "rules.csv" =
      (rulesOfLines (scanLines
        { content := "  a.* \r\n# note\n\nb.*\t\na.*".data, readErr := none }).1, none) ∧
    (scanLines { content := "  a.* \r\n# note\n\nb.*\t\na.*".data, readErr := none }).1 =
      ["  a.* ", "# note", "", "b.*\t", "a.*"] ∧
    rulesOfLines ["  a.* ", "# note", "", "b.*\t", "a.*"] = ["a.*", "b.*", "a.*"] :=
  ⟨(C5_loader_output (oneFile "rules.csv" "  a.* \r\n# note\n\nb.*\t\na.*") "rules.csv"
      { content := "  a.* \r\n# note\n\nb.*\t\na.*".data, readErr := none }
      (by decide) (by decide) (by decide)).1, by decide, by decide⟩

/-- C6: `loadRulesFromFile` returns no rules and no error for the empty path,
whatever the file system holds, and for a path whose file does not exist; for
every other failure to open the file, and for every error of the scan, it
returns that error and no rules. A read error of the file is returned as it is
when the text read before it is shorter than the scanner's buffer, and in any
case some error is returned with no rules. -/
theorem C6_loader_errors :
    (∀ fs : FileSystem, loadRulesFromFile fs "" = ([], none)) ∧
    (∀ (fs : FileSystem) (filePath : String) (err : GoError),
      fs filePath = Except.error err → IsNotExist err = true →
      loadRulesFromFile fs filePath = ([], none)) ∧
    (∀ (fs : FileSystem) (filePath : String) (err : GoError), filePath ≠ "" →
      fs filePath = Except.error err → IsNotExist err = false →
      loadRulesFromFile fs filePath = ([], some err)) ∧
    (∀ (fs : FileSystem) (filePath : String) (file : File) (err : GoError), filePath ≠ "" →
      fs filePath = Except.ok file → (scanLines file).2 = some err →
      loadRulesFromFile fs filePath = ([], some err)) ∧
    (∀ (fs : FileSystem) (filePath : String) (file : File) (err : GoError), filePath ≠ "" →
      fs filePath = Except.ok file → file.readErr = some err →
      (loadRulesFromFile fs filePath = ([], some err) ∨
        loadRulesFromFile fs filePath = ([], some GoError.errTooLong)) ∧
      (byteLen file.content < MaxScanTokenSize →
        loadRulesFromFile fs filePath = ([], some err))) := by
  refine ⟨?_, ?_, ?_, ?_, ?_⟩
  · intro fs
    simp [loadRulesFromFile]
  · intro fs filePath err ho hn
    unfold loadRulesFromFile
    split_ifs
    · rfl
    · rw [ho]
      simp [hn]
  · intro fs filePath err hp ho hn
    unfold loadRulesFromFile
    rw [if_neg hp, ho]
    simp [hn]
  · intro fs filePath file err hp ho hs
    unfold loadRulesFromFile
    rw [if_neg hp, ho]
    simp only [hs]
  · intro fs filePath file err hp ho hr
    have key : ∀ e, (scanLines file).2 = some e → loadRulesFromFile fs filePath = ([], some e) := by
      intro e hs
      unfold loadRulesFromFile
      rw [if_neg hp, ho]
      simp only [hs]
    constructor
    · have h := scanLoop_readErr err file.content []
      rcases h with h | h
      · left
        apply key
        unfold scanLines
        rw [hr]
        exact h
      · right
        apply key
        unfold scanLines
        rw [hr]
        exact h
    · intro hlen
      apply key
      unfold scanLines
      rw [hr]
      apply scanLoop_short
      have : byteLen ([] : List Char) = 0 := rfl
      omega

/-- Witness of C6: a path without a file gives no rules and no error; a file
that cannot be opened for want of permission (errno 13) and a directory, whose
read fails (errno 21), give their error and no rules. -/
theorem C6_loader_errors_witness :
    loadRulesFromFile (oneFile "rules.csv" "a.*") "other.csv" = ([], none) ∧
    loadRulesFromFile (fun p => Except.error (GoError.pathError "open" p 13)) "rules.csv" =
      ([], some (GoError.pathError "open" "rules.csv" 13)) ∧
    loadRulesFromFile
        (fun _ => Except.ok { content := [], readErr := some (GoError.pathError "read" "d" 21) })
        "d" = ([], some (GoError.pathError "read" "d" 21)) ∧
    loadRulesFromFile
        (fun _ => Except.ok
          { content := "a.*\nb".data, readErr := some (GoError.pathError "read" "f" 5) })
        "f" = ([], some (GoError.pathError "read" "f" 5)) :=
  ⟨C6_loader_errors.2.1 (oneFile "rules.csv" "a.*") "other.csv"
      (GoError.pathError "open" "other.csv" ENOENT) (by decide) (by decide),
   C6_loader_errors.2.2.1 (fun p => Except.error (GoError.pathError "open" p 13)) "rules.csv"
      (GoError.pathError "open" "rules.csv" 13) (by decide) rfl (by decide),
   C6_loader_errors.2.2.2.1
      (fun _ => Except.ok { content := [], readErr := some (GoError.pathError "read" "d" 21) })
      "d" { content := [], readErr := some (GoError.pathError "read" "d" 21) }
      (GoError.pathError "read" "d" 21) (by decide) rfl (by decide),
   (C6_loader_errors.2.2.2.2
      (fun _ => Except.ok
        { content := "a.*\nb".data, readErr := some (GoError.pathError "read" "f" 5) })
      "f" { content := "a.*\nb".data, readErr := some (GoError.pathError "read" "f" 5) }
      (GoError.pathError "read" "f" 5) (by decide) rfl rfl).2 (by decide)⟩

/-! ## Facts about the rule-file step of `Main` -/

theorem loadRulesFromFile_empty_path (fs : FileSystem) :
    loadRulesFromFile fs "" = ([], none) := by
  simp [loadRulesFromFile]

theorem loadForwardRulesFile_eq (fs : FileSystem) (o : Options) :
    loadForwardRulesFile fs o =
      match (loadRulesFromFile fs o.ForwardRulesFile).2 with
      | some err => Except.error (Exit.fatal (FatalError.loadForwardRules o.ForwardRulesFile err))
      | none => Except.ok { o with
          ForwardRules := o.ForwardRules ++ (loadRulesFromFile fs o.ForwardRulesFile).1 } := by
  unfold loadForwardRulesFile
  by_cases h : o.ForwardRulesFile = ""
  · have e : loadRulesFromFile fs o.ForwardRulesFile = ([], none) := by
      rw [h]
      exact loadRulesFromFile_empty_path fs
    rw [if_neg (not_not.2 h), e]
    simp only [List.append_nil]
  · rw [if_pos h]
    rcases hl : loadRulesFromFile fs o.ForwardRulesFile with ⟨rules, _ | err⟩ <;> rfl

theorem loadDNSRedirectRulesFile_eq (fs : FileSystem) (o : Options) :
    loadDNSRedirectRulesFile fs o =
      match (loadRulesFromFile fs o.DNSRedirectRulesFile).2 with
      | some err =>
        Except.error (Exit.fatal (FatalError.loadDNSRedirectRules o.DNSRedirectRulesFile err))
      | none => Except.ok { o with
          DNSRedirectRules :=
            o.DNSRedirectRules ++ (loadRulesFromFile fs o.DNSRedirectRulesFile).1 } := by
  unfold loadDNSRedirectRulesFile
  by_cases h : o.DNSRedirectRulesFile = ""
  · have e : loadRulesFromFile fs o.DNSRedirectRulesFile = ([], none) := by
      rw [h]
      exact loadRulesFromFile_empty_path fs
    rw [if_neg (not_not.2 h), e]
    simp only [List.append_nil]
  · rw [if_pos h]
    rcases hl : loadRulesFromFile fs o.DNSRedirectRulesFile with ⟨rules, _ | err⟩ <;> rfl

theorem loadBlockRulesFile_eq (fs : FileSystem) (o : Options) :
    loadBlockRulesFile fs o =
      match (loadRulesFromFile fs o.BlockRulesFile).2 with
      | some err => Except.error (Exit.fatal (FatalError.loadBlockRules o.BlockRulesFile err))
      | none => Except.ok { o with
          BlockRules := o.BlockRules ++ (loadRulesFromFile fs o.BlockRulesFile).1 } := by
  unfold loadBlockRulesFile
  by_cases h : o.BlockRulesFile = ""
  · have e : loadRulesFromFile fs o.BlockRulesFile = ([], none) := by
      rw [h]
      exact loadRulesFromFile_empty_path fs
    rw [if_neg (not_not.2 h), e]
    simp only [List.append_nil]
  · rw [if_pos h]
    rcases hl : loadRulesFromFile fs o.BlockRulesFile with ⟨rules, _ | err⟩ <;> rfl

theorem loadDropRulesFile_eq (fs : FileSystem) (o : Options) :
    loadDropRulesFile fs o =
      match (loadRulesFromFile fs o.DropRulesFile).2 with
      | some err => Except.error (Exit.fatal (FatalError.loadDropRules o.DropRulesFile err))
      | none => Except.ok { o with
          DropRules := o.DropRules ++ (loadRulesFromFile fs o.DropRulesFile).1 } := by
  unfold loadDropRulesFile
  by_cases h : o.DropRulesFile = ""
  · have e : loadRulesFromFile fs o.DropRulesFile = ([], none) := by
      rw [h]
      exact loadRulesFromFile_empty_path fs
    rw [if_neg (not_not.2 h), e]
    simp only [List.append_nil]
  · rw [if_pos h]
    rcases hl : loadRulesFromFile fs o.DropRulesFile with ⟨rules, _ | err⟩ <;> rfl

/-- The rule-file step succeeds exactly when none of the four loads returns an
error, and then gives the merged settings. -/
theorem loadRuleFiles_ok_iff (fs : FileSystem) (o o' : Options) :
    loadRuleFiles fs o = Except.ok o' ↔
      ((loadRulesFromFile fs o.ForwardRulesFile).2 = none ∧
       (loadRulesFromFile fs o.DNSRedirectRulesFile).2 = none ∧
       (loadRulesFromFile fs o.BlockRulesFile).2 = none ∧
       (loadRulesFromFile fs o.DropRulesFile).2 = none) ∧ o' = mergedRules fs o := by
  unfold loadRuleFiles
  rw [loadForwardRulesFile_eq]
  cases h1 : (loadRulesFromFile fs o.ForwardRulesFile).2 with
  | some e => simp [bind, Except.bind]
  | none =>
    simp only [bind, Except.bind]
    rw [loadDNSRedirectRulesFile_eq]
    cases h2 : (loadRulesFromFile fs o.DNSRedirectRulesFile).2 with
    | some e => simp
    | none =>
      simp only []
      rw [loadBlockRulesFile_eq]
      cases h3 : (loadRulesFromFile fs o.BlockRulesFile).2 with
      | some e => simp
      | none =>
        simp only []
        rw [loadDropRulesFile_eq]
        cases h4 : (loadRulesFromFile fs o.DropRulesFile).2 with
        | some e => simp
        | none =>
          simp only [Except.ok.injEq, true_and, and_self]
          exact eq_comm

/-- C7: after the rule-file step of `Main` each of the forward, DNS redirect,
block and drop rule lists is the list L held in memory followed by the rules F
its file gives (L ++ F), nothing removed or reordered, and it is L itself when
the rules-file setting is empty; the step succeeds whenever no load returns an
error. Inline redirect rules "a.*", "b.*" and a file holding "c.*", a comment
line and a blank line give "a.*", "b.*", "c.*". -/
theorem C7_rule_file_merge :
    (∀ (fs : FileSystem) (o o' : Options), loadRuleFiles fs o = Except.ok o' →
      (o'.ForwardRules = o.ForwardRules ++ (loadRulesFromFile fs o.ForwardRulesFile).1 ∧
       o'.DNSRedirectRules =
         o.DNSRedirectRules ++ (loadRulesFromFile fs o.DNSRedirectRulesFile).1 ∧
       o'.BlockRules = o.BlockRules ++ (loadRulesFromFile fs o.BlockRulesFile).1 ∧
       o'.DropRules = o.DropRules ++ (loadRulesFromFile fs o.DropRulesFile).1) ∧
      ((o.ForwardRulesFile = "" → o'.ForwardRules = o.ForwardRules) ∧
       (o.DNSRedirectRulesFile = "" → o'.DNSRedirectRules = o.DNSRedirectRules) ∧
       (o.BlockRulesFile = "" → o'.BlockRules = o.BlockRules) ∧
       (o.DropRulesFile = "" → o'.DropRules = o.DropRules))) ∧
    (∀ (fs : FileSystem) (o : Options),
      (loadRulesFromFile fs o.ForwardRulesFile).2 = none →
      (loadRulesFromFile fs o.DNSRedirectRulesFile).2 = none →
      (loadRulesFromFile fs o.BlockRulesFile).2 = none →
      (loadRulesFromFile fs o.DropRulesFile).2 = none →
      loadRuleFiles fs o = Except.ok (mergedRules fs o)) ∧
    (∃ o', loadRuleFiles (oneFile "redirect.csv" "c.*\n# comment\n\n")
        { DefaultOptions with
          DNSRedirectRules := ["a.*", "b.*"], DNSRedirectRulesFile := "redirect.csv" } =
        Except.ok o' ∧ o'.DNSRedirectRules = ["a.*", "b.*", "c.*"]) := by
  refine ⟨?_, ?_, ?_⟩
  · intro fs o o' h
    obtain ⟨-, rfl⟩ := (loadRuleFiles_ok_iff fs o o').1 h
    refine ⟨⟨rfl, rfl, rfl, rfl⟩, ?_, ?_, ?_, ?_⟩ <;>
    · intro he
      simp [mergedRules, he, loadRulesFromFile_empty_path]
  · intro fs o h1 h2 h3 h4
    exact (loadRuleFiles_ok_iff fs o _).2 ⟨⟨h1, h2, h3, h4⟩, rfl⟩
  · exact ⟨{ DefaultOptions with
      DNSRedirectRules := ["a.*", "b.*", "c.*"], DNSRedirectRulesFile := "redirect.csv" },
      by decide, rfl⟩

/-- Witness of C7: forward rules in memory and in a file, a block-rules file
that does not exist, no drop-rules file. -/
theorem C7_rule_file_merge_witness :
    loadRuleFiles (oneFile "forward.csv" " x.* \nw.*\nx.*")
        { DefaultOptions with
          ForwardRules := ["w.*"], ForwardRulesFile := "forward.csv",
          BlockRules := ["b.*"], BlockRulesFile := "missing.csv" } =
      Except.ok (mergedRules (oneFile "forward.csv" " x.* \nw.*\nx.*")
        { DefaultOptions with
          ForwardRules := ["w.*"], ForwardRulesFile := "forward.csv",
          BlockRules := ["b.*"], BlockRulesFile := "missing.csv" }) ∧
    (mergedRules (oneFile "forward.csv" " x.* \nw.*\nx.*")
        { DefaultOptions with
          ForwardRules := ["w.*"], ForwardRulesFile := "forward.csv",
          BlockRules := ["b.*"], BlockRulesFile := "missing.csv" }).ForwardRules =
      ["w.*", "x.*", "w.*", "x.*"] ∧
    (mergedRules (oneFile "forward.csv" " x.* \nw.*\nx.*")
        { DefaultOptions with
          ForwardRules := ["w.*"], ForwardRulesFile := "forward.csv",
          BlockRules := ["b.*"], BlockRulesFile := "missing.csv" }).BlockRules = ["b.*"] :=
  ⟨C7_rule_file_merge.2.1 (oneFile "forward.csv" " x.* \nw.*\nx.*")
      { DefaultOptions with
        ForwardRules := ["w.*"], ForwardRulesFile := "forward.csv",
        BlockRules := ["b.*"], BlockRulesFile := "missing.csv" }
      (by decide) (by decide) (by decide) (by decide),
   by decide, by decide⟩

/-! ## Facts about the address parsers -/

/-- A dotted-decimal address has four octets. -/
theorem parseIPv4Loop_length (l : List Char) :
    ∀ (prev : Option Char) (fields : List Nat) (val digLen : Nat) (r : List Nat),
      fields.length ≤ 3 → parseIPv4Loop l prev fields val digLen = some r → r.length = 4 := by
  induction l with
  | nil =>
    intro prev fields val digLen r hf h
    unfold parseIPv4Loop at h
    split_ifs at h with h1
    cases h
    simp only [List.length_append, List.length_singleton]
    omega
  | cons c rest ih =>
    intro prev fields val digLen r hf h
    unfold parseIPv4Loop at h
    split at h
    · split_ifs at h
      exact ih _ _ _ _ _ hf h
    · split_ifs at h with h1 h2 h3
      apply ih _ _ _ _ _ _ h
      simp only [List.length_append, List.length_singleton]
      omega

theorem parseIPv4Fields_length (l : List Char) (r : List Nat)
    (h : parseIPv4Fields l = some r) : r.length = 4 :=
  parseIPv4Loop_length l none [] 0 0 r (by simp) h

/-- A text read as a dotted-decimal address holds digits and dots only, and a
dot unless three octets were stored before. -/
theorem parseIPv4Loop_chars (l : List Char) :
    ∀ (prev : Option Char) (fields : List Nat) (val digLen : Nat) (r : List Nat),
      parseIPv4Loop l prev fields val digLen = some r →
      (∀ c ∈ l, (decDigit c).isSome ∨ c = '.') ∧ (fields.length < 3 → '.' ∈ l) := by
  induction l with
  | nil =>
    intro prev fields val digLen r h
    unfold parseIPv4Loop at h
    split_ifs at h with h1
    exact ⟨by simp, fun hc => absurd hc h1⟩
  | cons c rest ih =>
    intro prev fields val digLen r h
    unfold parseIPv4Loop at h
    split at h
    · rename_i d hd
      split_ifs at h
      obtain ⟨h1, h2⟩ := ih _ _ _ _ _ h
      refine ⟨?_, fun hc => List.mem_cons_of_mem _ (h2 hc)⟩
      intro x hx
      rcases List.mem_cons.1 hx with rfl | hx
      · left; rw [hd]; rfl
      · exact h1 x hx
    · split_ifs at h with h1 h2 h3
      obtain ⟨h4, -⟩ := ih _ _ _ _ _ h
      refine ⟨?_, fun _ => by rw [h1]; exact List.mem_cons_self _ _⟩
      intro x hx
      rcases List.mem_cons.1 hx with rfl | hx
      · right; exact h1
      · exact h4 x hx

/-- On a text of digits and dots with a dot in the part still to scan,
`netip.ParseAddr` reads the text as a dotted-decimal address. -/
theorem parseAddrScan_dotted (s : List Char) (t : List Char)
    (h1 : ∀ c ∈ t, (decDigit c).isSome ∨ c = '.') (h2 : '.' ∈ t) :
    parseAddrScan s t = (parseIPv4Fields s).map Addr.v4 := by
  induction t with
  | nil => simp at h2
  | cons c rest ih =>
    unfold parseAddrScan
    by_cases hc : c = '.'
    · rw [if_pos hc]
    · rw [if_neg hc]
      have hd : (decDigit c).isSome := by
        rcases h1 c (List.mem_cons_self _ _) with h | h
        · exact h
        · exact absurd h hc
      have hcolon : c ≠ ':' := by
        rintro rfl
        exact absurd hd (by decide)
      have hpct : c ≠ '%' := by
        rintro rfl
        exact absurd hd (by decide)
      rw [if_neg hcolon, if_neg hpct]
      apply ih
      · intro x hx
        exact h1 x (List.mem_cons_of_mem _ hx)
      · rcases List.mem_cons.1 h2 with h | h
        · exact absurd h.symm hc
        · exact h

/-- A dotted-decimal IPv4 literal is parsed by `netip.ParseAddr` as the IPv4
address of its four octets. -/
theorem ParseAddr_of_parseIPv4Fields (s : String) (r : List Nat)
    (h : parseIPv4Fields s.data = some r) : ParseAddr s = some (Addr.v4 r) := by
  obtain ⟨h1, h2⟩ := parseIPv4Loop_chars s.data none [] 0 0 r h
  unfold ParseAddr
  rw [parseAddrScan_dotted s.data s.data h1 (h2 (by simp)), h]
  rfl

/-- The loop of `netip.parseIPv6` never writes past the sixteenth byte and
keeps the ellipsis within the bytes written. -/
theorem parseIPv6Loop_bound (groups : Nat) :
    ∀ (ip : List Nat) (ellipsis : Option Nat) (s : List Char)
      (r : List Nat × Option Nat × List Char),
      ip.length + 2 * groups = 16 → (∀ e, ellipsis = some e → e ≤ ip.length) →
      parseIPv6Loop groups ip ellipsis s = some r →
      r.1.length ≤ 16 ∧ (∀ e, r.2.1 = some e → e ≤ r.1.length) := by
  induction groups with
  | zero =>
    intro ip ellipsis s r hlen hell h
    unfold parseIPv6Loop at h
    cases h
    refine ⟨?_, hell⟩
    show ip.length ≤ 16
    omega
  | succ groups ih =>
    intro ip ellipsis s r hlen hell h
    have hpush : (ip ++ [0, 0]).length = ip.length + 2 := by simp
    have step : ∀ (x y : Nat) (ell : Option Nat) (t : List Char),
        (∀ e, ell = some e → e ≤ ip.length + 2) →
        parseIPv6Loop groups (ip ++ [x, y]) ell t = some r →
        r.1.length ≤ 16 ∧ (∀ e, r.2.1 = some e → e ≤ r.1.length) := by
      intro x y ell t hl hr
      apply ih _ _ _ _ _ _ hr
      · simp only [List.length_append, List.length_cons, List.length_nil]
        omega
      · intro e he
        have := hl e he
        simp only [List.length_append, List.length_cons, List.length_nil]
        omega
    have stop : ∀ (x y : Nat) (ell : Option Nat) (t : List Char),
        (∀ e, ell = some e → e ≤ ip.length + 2) →
        some (ip ++ [x, y], ell, t) = some r →
        r.1.length ≤ 16 ∧ (∀ e, r.2.1 = some e → e ≤ r.1.length) := by
      intro x y ell t hl hr
      cases hr
      refine ⟨?_, ?_⟩
      · show (ip ++ [x, y]).length ≤ 16
        simp only [List.length_append, List.length_cons, List.length_nil]
        omega
      · intro e he
        have := hl e he
        show e ≤ (ip ++ [x, y]).length
        simp only [List.length_append, List.length_cons, List.length_nil]
        omega
    have hell2 : ∀ e, ellipsis = some e → e ≤ ip.length + 2 := by
      intro e he
      have := hell e he
      omega
    have hnew : ∀ e, some (ip.length + 2) = some e → e ≤ ip.length + 2 := by
      intro e he
      simp only [Option.some.injEq] at he
      omega
    unfold parseIPv6Loop at h
    split at h
    · cases h
    · split at h
      · cases h
      · split at h
        · exact stop _ _ _ _ hell2 h
        · split at h
          · split at h
            · cases h
            · split at h
              · cases h
              · split at h
                · cases h
                · rename_i hnot hroom fields hf
                  cases h
                  have h4 := parseIPv4Fields_length _ _ hf
                  refine ⟨?_, ?_⟩
                  · show (ip ++ fields).length ≤ 16
                    simp only [List.length_append]
                    omega
                  · intro e he
                    have := hell e he
                    show e ≤ (ip ++ fields).length
                    simp only [List.length_append]
                    omega
          · split at h
            · cases h
            · split at h
              · cases h
              · split at h
                · split at h
                  · cases h
                  · split at h
                    · exact stop _ _ _ _ hnew h
                    · exact step _ _ _ _ hnew h
                · exact step _ _ _ _ hell2 h

/-- What `netip.parseIPv6` returns after its loop has sixteen bytes. -/
theorem finishIPv6_length (r : List Nat × Option Nat × List Char) (b : List Nat)
    (h1 : r.1.length ≤ 16) (h2 : ∀ e, r.2.1 = some e → e ≤ r.1.length)
    (h : finishIPv6 r = some b) : b.length = 16 := by
  obtain ⟨ip, ellipsis, rest⟩ := r
  unfold finishIPv6 at h
  simp only at h1 h2 h
  split_ifs at h with h3 h4 h5
  · cases ellipsis with
    | none => cases h
    | some e =>
      simp only [Option.some.injEq] at h
      have := h2 e rfl
      rw [← h]
      simp only [List.length_append, List.length_take, List.length_replicate, List.length_drop]
      omega
  · cases h
    omega

/-- An IPv6 address read by `netip.parseIPv6` has sixteen bytes. -/
theorem parseIPv6Bytes_length (s : List Char) (b : List Nat)
    (h : parseIPv6Bytes s = some b) : b.length = 16 := by
  have loop : ∀ (ell : Option Nat) (t : List Char), (∀ e, ell = some e → e ≤ 0) →
      (parseIPv6Loop 8 [] ell t).bind finishIPv6 = some b → b.length = 16 := by
    intro ell t hell hb
    cases hl : parseIPv6Loop 8 [] ell t with
    | none => rw [hl] at hb; cases hb
    | some r =>
      rw [hl] at hb
      obtain ⟨h1, h2⟩ := parseIPv6Loop_bound 8 [] ell t r (by simp) (by simpa using hell) hl
      exact finishIPv6_length r b h1 h2 hb
  unfold parseIPv6Bytes at h
  split at h
  · split_ifs at h
    · cases h
      simp
    · exact loop _ _ (by simp) h
  · exact loop _ _ (by simp) h

/-- An address parsed by `netip.ParseAddr` is an IPv4 address of four bytes or
an IPv6 address of sixteen bytes, so its `As16` form has sixteen bytes. -/
theorem ParseAddr_As16_length (s : String) (a : Addr) (h : ParseAddr s = some a) :
    a.As16.length = 16 := by
  have key : ∀ l t : List Char, parseAddrScan l t = some a → a.As16.length = 16 := by
    intro l t
    induction t with
    | nil => simp [parseAddrScan]
    | cons c rest ih =>
      unfold parseAddrScan
      split_ifs
      · intro h
        cases hp : parseIPv4Fields l with
        | none => rw [hp] at h; cases h
        | some b =>
          rw [hp] at h
          cases h
          have := parseIPv4Fields_length l b hp
          simp [Addr.As16, this]
      · unfold parseIPv6
        intro h
        split at h
        · cases hp : parseIPv6Bytes _ with
          | none => rw [hp] at h; cases h
          | some b =>
            rw [hp] at h
            cases h
            exact parseIPv6Bytes_length _ b hp
        · split_ifs at h
          cases hp : parseIPv6Bytes _ with
          | none => rw [hp] at h; cases h
          | some b =>
            rw [hp] at h
            cases h
            exact parseIPv6Bytes_length _ b hp
      · intro h; cases h
      · exact ih
  exact key _ _ h

/-- The slice `net.ParseIP` returns is nil or has sixteen bytes. -/
theorem ParseIP_length (s : String) (h : ParseIP s ≠ []) : (ParseIP s).length = 16 := by
  unfold ParseIP at h ⊢
  cases hp : ParseAddr s with
  | none => rw [hp] at h; exact absurd rfl h
  | some a =>
    rw [hp] at h
    simp only at h ⊢
    split_ifs at h ⊢ with hz
    · exact absurd rfl h
    · exact ParseAddr_As16_length s a hp

/-- For the slice of a parsed address `IP.To16` never gives nil. -/
theorem To16_ParseIP_ne_nil (s : String) (h : ParseIP s ≠ []) : To16 (ParseIP s) ≠ [] := by
  have hl := ParseIP_length s h
  unfold To16
  split
  · rename_i a b c d heq
    rw [heq] at hl
    simp at hl
  · rw [if_pos hl]
    exact h

theorem To4_IPv4 (a b c d : Nat) : To4 (IPv4 a b c d) = [a, b, c, d] := rfl

/-- A sixteen-byte slice with an IPv4 form is the IPv4-mapped address of four
bytes. -/
theorem To4_ne_nil (ip : IP) (hl : ip.length = 16) (h : To4 ip ≠ []) :
    ∃ a b c d, ip = IPv4 a b c d := by
  rcases ip with _ | ⟨x0, _ | ⟨x1, _ | ⟨x2, _ | ⟨x3, _ | ⟨x4, _ | ⟨x5, _ | ⟨x6, _ | ⟨x7, _ | ⟨x8, _ | ⟨x9, _ | ⟨x10, _ | ⟨x11, _ | ⟨x12, _ | ⟨x13, _ | ⟨x14, _ | ⟨x15, _ | ⟨y, t⟩⟩⟩⟩⟩⟩⟩⟩⟩⟩⟩⟩⟩⟩⟩⟩⟩
  all_goals simp only [List.length_cons, List.length_nil] at hl
  all_goals try omega
  simp only [To4, List.length_cons, List.length_nil] at h
  norm_num at h
  obtain ⟨rfl, rfl, rfl, rfl, rfl, rfl, rfl, rfl, rfl, rfl, rfl, rfl, -⟩ := h
  exact ⟨x12, x13, x14, x15, rfl⟩

/-- A dotted-decimal literal is parsed by `net.ParseIP` to the sixteen-byte
form of its address. -/
theorem ParseIP_of_literal (s : String) (a b c d : Nat)
    (h : parseIPv4Fields s.data = some [a, b, c, d]) : ParseIP s = IPv4 a b c d := by
  unfold ParseIP
  rw [ParseAddr_of_parseIPv4Fields s _ h]
  rfl

theorem parseIPv4Fields_four (l : List Char) (h : (parseIPv4Fields l).isSome) :
    ∃ a b c d, parseIPv4Fields l = some [a, b, c, d] := by
  obtain ⟨r, hr⟩ := Option.isSome_iff_exists.1 h
  have hl := parseIPv4Fields_length l r hr
  rcases r with _ | ⟨a, _ | ⟨b, _ | ⟨c, _ | ⟨d, _ | ⟨e, t⟩⟩⟩⟩⟩ <;>
    simp only [List.length_cons, List.length_nil] at hl <;> try omega
  exact ⟨a, b, c, d, hr⟩

/-- What `redirectIPv4` gives for a supplied value. -/
theorem redirectIPv4_ok_iff (o : Options) (h : o.DNSRedirectIPV4To ≠ "") (ip : IP) :
    redirectIPv4 o = Except.ok ip ↔
      (To4 (ParseIP o.DNSRedirectIPV4To) ≠ [] ∧ ip = ParseIP o.DNSRedirectIPV4To) := by
  unfold redirectIPv4
  rw [if_pos h]
  by_cases h1 : ParseIP o.DNSRedirectIPV4To = []
  · simp only [h1, if_true]
    constructor
    · intro hc; cases hc
    · rintro ⟨hc, -⟩
      exact absurd rfl hc
  · by_cases h2 : To4 (ParseIP o.DNSRedirectIPV4To) = []
    · simp only [h1, h2, if_true, if_false]
      constructor
      · intro hc; cases hc
      · rintro ⟨hc, -⟩
        exact absurd rfl hc
    · simp only [h1, h2, if_false, Except.ok.injEq, ne_eq, not_false_eq_true, true_and]
      exact eq_comm

theorem optionalListener_error (address : String) (port : Int) (e : FatalError)
    (h : optionalListener address port = Except.error e) : e = FatalError.check address := by
  unfold optionalListener at h
  split at h
  · split at h
    · cases h; rfl
    · cases h
  · cases h

theorem redirectIPv4_error (o : Options) (e : FatalError)
    (h : redirectIPv4 o = Except.error e) :
    e = FatalError.parseRedirectIPv4 o.DNSRedirectIPV4To ∨
      e = FatalError.redirectNotIPv4 o.DNSRedirectIPV4To := by
  unfold redirectIPv4 at h
  split at h
  · simp only at h
    split at h
    · cases h; left; rfl
    · split at h
      · cases h; right; rfl
      · cases h
  · cases h

/-- The only error of `redirectIPv6` is the parse error: its address-family
test is never met by the slice of a parsed address. -/
theorem redirectIPv6_error (o : Options) (e : FatalError)
    (h : redirectIPv6 o = Except.error e) :
    e = FatalError.parseRedirectIPv6 o.DNSRedirectIPV6To := by
  unfold redirectIPv6 at h
  split at h
  · simp only at h
    split at h
    · cases h; rfl
    · rename_i hne
      split at h
      · rename_i h16
        exact absurd h16 (To16_ParseIP_ne_nil _ hne)
      · cases h
  · cases h

/-- What `redirectIPv6` gives for a supplied value: whatever `net.ParseIP`
makes of it, of either address family. -/
theorem redirectIPv6_ok_iff (o : Options) (h : o.DNSRedirectIPV6To ≠ "") (ip : IP) :
    redirectIPv6 o = Except.ok ip ↔
      (ParseIP o.DNSRedirectIPV6To ≠ [] ∧ ip = ParseIP o.DNSRedirectIPV6To) := by
  unfold redirectIPv6
  rw [if_pos h]
  by_cases h1 : ParseIP o.DNSRedirectIPV6To = []
  · simp only [h1, if_true]
    constructor
    · intro hc; cases hc
    · rintro ⟨hc, -⟩
      exact absurd rfl hc
  · have h2 := To16_ParseIP_ne_nil _ h1
    simp only [h1, h2, if_false, Except.ok.injEq, ne_eq, not_false_eq_true, true_and]
    exact eq_comm

/-- The errors `toDNSProxyConfig` can end with. -/
theorem toDNSProxyConfig_error (o : Options) (e : FatalError)
    (h : toDNSProxyConfig o = Except.error e) :
    (∃ value, e = FatalError.check value) ∨
      e = FatalError.parseRedirectIPv4 o.DNSRedirectIPV4To ∨
      e = FatalError.redirectNotIPv4 o.DNSRedirectIPV4To ∨
      e = FatalError.parseRedirectIPv6 o.DNSRedirectIPV6To ∨
      e = FatalError.noRedirectTarget := by
  unfold toDNSProxyConfig at h
  cases h0 : ParseAddr o.DNSListenAddress with
  | none =>
    rw [h0] at h
    cases h
    exact Or.inl ⟨_, rfl⟩
  | some addr =>
    rw [h0] at h
    simp only at h
    cases h1 : optionalListener o.DOTListenAddress o.DOTPort with
    | error e1 =>
      rw [h1] at h
      cases h
      exact Or.inl ⟨_, optionalListener_error _ _ _ h1⟩
    | ok tls =>
      rw [h1] at h
      simp only at h
      cases h2 : optionalListener o.DOHListenAddress o.DOHPort with
      | error e2 =>
        rw [h2] at h
        cases h
        exact Or.inl ⟨_, optionalListener_error _ _ _ h2⟩
      | ok https =>
        rw [h2] at h
        simp only at h
        cases h3 : optionalListener o.DOQListenAddress o.DOQPort with
        | error e3 =>
          rw [h3] at h
          cases h
          exact Or.inl ⟨_, optionalListener_error _ _ _ h3⟩
        | ok quic =>
          rw [h3] at h
          simp only at h
          cases h4 : redirectIPv4 o with
          | error e4 =>
            rw [h4] at h
            cases h
            rcases redirectIPv4_error o _ h4 with r | r
            · exact Or.inr (Or.inl r)
            · exact Or.inr (Or.inr (Or.inl r))
          | ok r4 =>
            rw [h4] at h
            simp only at h
            cases h5 : redirectIPv6 o with
            | error e5 =>
              rw [h5] at h
              cases h
              exact Or.inr (Or.inr (Or.inr (Or.inl (redirectIPv6_error o _ h5))))
            | ok r6 =>
              rw [h5] at h
              simp only at h
              split at h
              · cases h
                exact Or.inr (Or.inr (Or.inr (Or.inr rfl)))
              · cases h

/-! ## The redirect targets -/

/-- Counterexample to C2 as stated: the value "::ffff:203.0.113.5" of
dns-redirect-ipv4-to is not a syntactically valid IPv4 address (it is an IPv6
literal), and the defaults with it are accepted, with RedirectIPv4To the
address 203.0.113.5; so not every accepted value is a syntactically valid IPv4
address. -/
theorem C2_counterexample :
    (IsIPv4Literal "::ffff:203.0.113.5" = false ∧
      IsIPv6Literal "::ffff:203.0.113.5" = true ∧
      toDNSProxyConfig { DefaultOptions with DNSRedirectIPV4To := "::ffff:203.0.113.5" } =
        Except.ok (dnsConfigOf
          { DefaultOptions with DNSRedirectIPV4To := "::ffff:203.0.113.5" }
          (Addr.v4 [0, 0, 0, 0]) (AddrPortFrom (Addr.v4 [0, 0, 0, 0]) 853)
          (AddrPortFrom (Addr.v4 [0, 0, 0, 0]) 8443)
          (AddrPortFrom (Addr.v4 [0, 0, 0, 0]) 8853) (IPv4 203 0 113 5) [])) ∧
    ¬ (∀ o : Options, o.DNSRedirectIPV4To ≠ "" →
        (∃ cfg, toDNSProxyConfig o = Except.ok cfg) →
        IsIPv4Literal o.DNSRedirectIPV4To = true) := by
  have h : toDNSProxyConfig { DefaultOptions with DNSRedirectIPV4To := "::ffff:203.0.113.5" } =
      Except.ok (dnsConfigOf
        { DefaultOptions with DNSRedirectIPV4To := "::ffff:203.0.113.5" }
        (Addr.v4 [0, 0, 0, 0]) (AddrPortFrom (Addr.v4 [0, 0, 0, 0]) 853)
        (AddrPortFrom (Addr.v4 [0, 0, 0, 0]) 8443)
        (AddrPortFrom (Addr.v4 [0, 0, 0, 0]) 8853) (IPv4 203 0 113 5) []) := by decide
  refine ⟨⟨by decide, by decide, h⟩, ?_⟩
  intro hall
  have := hall { DefaultOptions with DNSRedirectIPV4To := "::ffff:203.0.113.5" }
    (by decide) ⟨_, h⟩
  exact absurd this (by decide)

/-- C2, amended: when dns-redirect-ipv4-to is not empty, `toDNSProxyConfig` is
accepted only if the value parses to an address with an IPv4 form, that is if
`net.ParseIP` gives the sixteen-byte form of some a.b.c.d (a dotted-decimal
literal or an IPv4-mapped IPv6 literal), and then RedirectIPv4To is that
address; a value that does not parse, and one that parses to an address
without IPv4 form such as "2001:db8::1", are rejected whatever the other
settings are; for a dotted-decimal literal a.b.c.d an accepted configuration
has RedirectIPv4To = a.b.c.d. -/
theorem C2_redirect_ipv4 :
    (∀ (o : Options) (cfg : DNSConfig), o.DNSRedirectIPV4To ≠ "" →
      toDNSProxyConfig o = Except.ok cfg →
      ∃ a b c d, ParseIP o.DNSRedirectIPV4To = IPv4 a b c d ∧
        cfg.RedirectIPv4To = IPv4 a b c d ∧ To4 cfg.RedirectIPv4To = [a, b, c, d]) ∧
    (∀ o : Options, o.DNSRedirectIPV4To ≠ "" → To4 (ParseIP o.DNSRedirectIPV4To) = [] →
      ∃ e, toDNSProxyConfig o = Except.error e) ∧
    (∀ o : Options, o.DNSRedirectIPV4To = "2001:db8::1" →
      ∃ e, toDNSProxyConfig o = Except.error e) ∧
    (∀ o : Options, o.DNSRedirectIPV4To = "not-an-ip" →
      ∃ e, toDNSProxyConfig o = Except.error e) ∧
    (∀ (o : Options) (cfg : DNSConfig), IsIPv4Literal o.DNSRedirectIPV4To = true →
      toDNSProxyConfig o = Except.ok cfg →
      ∃ a b c d, parseIPv4Fields o.DNSRedirectIPV4To.data = some [a, b, c, d] ∧
        cfg.RedirectIPv4To = IPv4 a b c d ∧ To4 cfg.RedirectIPv4To = [a, b, c, d]) := by
  have accepted : ∀ (o : Options) (cfg : DNSConfig), o.DNSRedirectIPV4To ≠ "" →
      toDNSProxyConfig o = Except.ok cfg →
      To4 (ParseIP o.DNSRedirectIPV4To) ≠ [] ∧
        cfg.RedirectIPv4To = ParseIP o.DNSRedirectIPV4To := by
    intro o cfg hne h
    obtain ⟨addr, tls, https, quic, r4, r6, -, -, -, -, e4, -, -, rfl⟩ :=
      (toDNSProxyConfig_ok_iff o cfg).1 h
    exact (redirectIPv4_ok_iff o hne r4).1 e4
  have rejected : ∀ o : Options, o.DNSRedirectIPV4To ≠ "" →
      To4 (ParseIP o.DNSRedirectIPV4To) = [] → ∃ e, toDNSProxyConfig o = Except.error e := by
    intro o hne h4
    cases h : toDNSProxyConfig o with
    | error e => exact ⟨e, rfl⟩
    | ok cfg => exact absurd h4 (accepted o cfg hne h).1
  refine ⟨?_, rejected, ?_, ?_, ?_⟩
  · intro o cfg hne h
    obtain ⟨h4, hc⟩ := accepted o cfg hne h
    have hnil : ParseIP o.DNSRedirectIPV4To ≠ [] := by
      intro hn
      rw [hn] at h4
      exact h4 rfl
    obtain ⟨a, b, c, d, hip⟩ := To4_ne_nil _ (ParseIP_length _ hnil) h4
    refine ⟨a, b, c, d, hip, by rw [hc, hip], ?_⟩
    rw [hc, hip]
    rfl
  · intro o hv
    apply rejected o
    · rw [hv]; decide
    · rw [hv]; decide
  · intro o hv
    apply rejected o
    · rw [hv]; decide
    · rw [hv]; decide
  · intro o cfg hlit h
    obtain ⟨a, b, c, d, hp⟩ := parseIPv4Fields_four _ hlit
    have hne : o.DNSRedirectIPV4To ≠ "" := by
      intro he
      rw [he] at hlit
      exact absurd hlit (by decide)
    obtain ⟨-, hc⟩ := accepted o cfg hne h
    have hip := ParseIP_of_literal _ a b c d hp
    refine ⟨a, b, c, d, hp, by rw [hc, hip], ?_⟩
    rw [hc, hip]
    rfl

/-- Witness of C2 (amended): the defaults with dns-redirect-ipv4-to
"198.51.100.7" are accepted with that address as RedirectIPv4To; with
"2001:db8::1" and with "not-an-ip" they are rejected. -/
theorem C2_redirect_ipv4_witness :
    (∃ a b c d, parseIPv4Fields "198.51.100.7".data = some [a, b, c, d] ∧
      (dnsConfigOf { DefaultOptions with DNSRedirectIPV4To := "198.51.100.7" }
        (Addr.v4 [0, 0, 0, 0]) (AddrPortFrom (Addr.v4 [0, 0, 0, 0]) 853)
        (AddrPortFrom (Addr.v4 [0, 0, 0, 0]) 8443)
        (AddrPortFrom (Addr.v4 [0, 0, 0, 0]) 8853)
        (IPv4 198 51 100 7) []).RedirectIPv4To = IPv4 a b c d ∧
      To4 (IPv4 198 51 100 7) = [a, b, c, d]) ∧
    (∃ e, toDNSProxyConfig { DefaultOptions with DNSRedirectIPV4To := "2001:db8::1" } =
      Except.error e) ∧
    (∃ e, toDNSProxyConfig { DefaultOptions with DNSRedirectIPV4To := "not-an-ip" } =
      Except.error e) :=
  ⟨C2_redirect_ipv4.2.2.2.2 { DefaultOptions with DNSRedirectIPV4To := "198.51.100.7" }
      (dnsConfigOf { DefaultOptions with DNSRedirectIPV4To := "198.51.100.7" }
        (Addr.v4 [0, 0, 0, 0]) (AddrPortFrom (Addr.v4 [0, 0, 0, 0]) 853)
        (AddrPortFrom (Addr.v4 [0, 0, 0, 0]) 8443)
        (AddrPortFrom (Addr.v4 [0, 0, 0, 0]) 8853) (IPv4 198 51 100 7) [])
      (by decide) (by decide),
   C2_redirect_ipv4.2.2.1 { DefaultOptions with DNSRedirectIPV4To := "2001:db8::1" } rfl,
   C2_redirect_ipv4.2.2.2.1 { DefaultOptions with DNSRedirectIPV4To := "not-an-ip" } rfl⟩

/-- C3, the code at the failing input: the IPv4 literal "203.0.113.5", which
is not an IPv6 literal, supplied as dns-redirect-ipv6-to with the defaults is
accepted, and RedirectIPv6To is the sixteen-byte form of 203.0.113.5 while
RedirectIPv4To stays nil; in general `toDNSProxyConfig` never ends with the
error "dns-redirect-ipv6-to must be an IPv6 address", and every supplied value
that `net.ParseIP` parses passes the IPv6 test. -/
theorem C3_redirect_ipv6_family_unchecked :
    IsIPv4Literal "203.0.113.5" = true ∧ IsIPv6Literal "203.0.113.5" = false ∧
    toDNSProxyConfig { DefaultOptions with DNSRedirectIPV6To := "203.0.113.5" } =
      Except.ok (dnsConfigOf { DefaultOptions with DNSRedirectIPV6To := "203.0.113.5" }
        (Addr.v4 [0, 0, 0, 0]) (AddrPortFrom (Addr.v4 [0, 0, 0, 0]) 853)
        (AddrPortFrom (Addr.v4 [0, 0, 0, 0]) 8443)
        (AddrPortFrom (Addr.v4 [0, 0, 0, 0]) 8853) [] (IPv4 203 0 113 5)) ∧
    (∀ (o : Options) (value : String),
      toDNSProxyConfig o ≠ Except.error (FatalError.redirectNotIPv6 value)) ∧
    (∀ o : Options, o.DNSRedirectIPV6To ≠ "" → ParseIP o.DNSRedirectIPV6To ≠ [] →
      redirectIPv6 o = Except.ok (ParseIP o.DNSRedirectIPV6To)) := by
  refine ⟨by decide, by decide, by decide, ?_, ?_⟩
  · intro o value h
    rcases toDNSProxyConfig_error o _ h with ⟨v, hv⟩ | hv | hv | hv | hv <;> cases hv
  · intro o hne hp
    exact (redirectIPv6_ok_iff o hne _).2 ⟨hp, rfl⟩

/-! ## The order of start-up -/

/-- What `run` does, by the outcome of each step. -/
theorem run_eq (eng : Engines) (o : Options) :
    run eng o =
      match toDNSProxyConfig o with
      | Except.error e => ([], RunEnd.fatal e)
      | Except.ok cfg =>
        match eng.dnsNew cfg with
        | some err => ([Event.dnsNew cfg], RunEnd.check err)
        | none =>
          match eng.dnsStart cfg with
          | some err => ([Event.dnsNew cfg, Event.dnsStart], RunEnd.check err)
          | none =>
            match togoraoConfig o with
            | Except.error e => ([Event.dnsNew cfg, Event.dnsStart], RunEnd.fatal e)
            | Except.ok tun =>
              match eng.tunnelNew tun with
              | some err =>
                ([Event.dnsNew cfg, Event.dnsStart, Event.tunnelNew tun], RunEnd.check err)
              | none =>
                match eng.tunnelStart tun with
                | some err =>
                  ([Event.dnsNew cfg, Event.dnsStart, Event.tunnelNew tun,
                    Event.tunnelStart], RunEnd.check err)
                | none =>
                  ([Event.dnsNew cfg, Event.dnsStart, Event.tunnelNew tun,
                    Event.tunnelStart, Event.awaitSignal, Event.dnsClose,
                    Event.tunnelClose], RunEnd.stopped) := by
  unfold run newDNSProxy newgorao
  cases toDNSProxyConfig o with
  | error e => rfl
  | ok cfg =>
    simp only
    cases eng.dnsNew cfg with
    | some err => rfl
    | none =>
      simp only
      cases eng.dnsStart cfg with
      | some err => rfl
      | none =>
        simp only
        cases togoraoConfig o with
        | error e => rfl
        | ok tun =>
          simp only
          cases eng.tunnelNew tun with
          | some err => rfl
          | none =>
            simp only
            cases eng.tunnelStart tun with
            | some err => rfl
            | none => rfl

/-- Counterexample to C11 as stated: the defaults with dns-redirect-ipv4-to
"203.0.113.5" and tls-address "localhost" fail validation (the tls-address is
not an IP literal), yet with engines that work `run` has called `dnsproxy.New`
and `Start` on the DNS engine before it ends in the fatal error of
`togoraoConfig`; so validation of the whole settings does not come before
every engine construction. -/
theorem C11_counterexample :
    (ParseIP "localhost" = [] ∧
      failsValidation { DefaultOptions with
        DNSRedirectIPV4To := "203.0.113.5", TLSListenAddress := "localhost" } = true ∧
      run Engines.healthy { DefaultOptions with
          DNSRedirectIPV4To := "203.0.113.5", TLSListenAddress := "localhost" } =
        ([Event.dnsNew (dnsConfigOf
            { DefaultOptions with
              DNSRedirectIPV4To := "203.0.113.5", TLSListenAddress := "localhost" }
            (Addr.v4 [0, 0, 0, 0]) (AddrPortFrom (Addr.v4 [0, 0, 0, 0]) 853)
            (AddrPortFrom (Addr.v4 [0, 0, 0, 0]) 8443)
            (AddrPortFrom (Addr.v4 [0, 0, 0, 0]) 8853) (IPv4 203 0 113 5) []),
          Event.dnsStart],
         RunEnd.fatal (FatalError.parseTLSAddress "localhost")) ∧
      dnsEngineTouched (run Engines.healthy { DefaultOptions with
        DNSRedirectIPV4To := "203.0.113.5", TLSListenAddress := "localhost" }).1 = true) ∧
    ¬ (∀ (eng : Engines) (o : Options), failsValidation o = true →
        dnsEngineTouched (run eng o).1 = false) := by
  have h : dnsEngineTouched (run Engines.healthy { DefaultOptions with
      DNSRedirectIPV4To := "203.0.113.5", TLSListenAddress := "localhost" }).1 = true := by
    decide
  refine ⟨⟨by decide, by decide, by decide, h⟩, ?_⟩
  intro hall
  have h2 := hall Engines.healthy { DefaultOptions with
    DNSRedirectIPV4To := "203.0.113.5", TLSListenAddress := "localhost" } (by decide)
  rw [h] at h2
  exact absurd h2 (by decide)

/-- C11, amended: start-up is sequential, each engine's settings being
validated just before that engine is constructed. When `toDNSProxyConfig`
rejects the settings, `run` ends in that fatal error with no call on any
engine. When it accepts them and `togoraoConfig` rejects them (tls-address or
http-address not an IP literal), `run` calls `dnsproxy.New` and, if that
succeeds, `Start` on the DNS engine, and then, if that succeeds, ends in the
fatal error of `togoraoConfig`. For settings that fail either validation the
run never calls the tunnel engine, never waits for the signal, never calls
`Close`, and does not end stopped; in every run the calls are an initial part
of the sequence DNS new, DNS start, tunnel new, tunnel start, wait, DNS close,
tunnel close. -/
theorem C11_startup_order :
    (∀ (eng : Engines) (o : Options) (e : FatalError),
      toDNSProxyConfig o = Except.error e → run eng o = ([], RunEnd.fatal e)) ∧
    (∀ (eng : Engines) (o : Options) (cfg : DNSConfig) (e : FatalError),
      toDNSProxyConfig o = Except.ok cfg → togoraoConfig o = Except.error e →
      eng.dnsNew cfg = none → eng.dnsStart cfg = none →
      run eng o = ([Event.dnsNew cfg, Event.dnsStart], RunEnd.fatal e)) ∧
    (∀ (eng : Engines) (o : Options), failsValidation o = true →
      (run eng o).2 ≠ RunEnd.stopped ∧
      ∀ ev ∈ (run eng o).1, (∃ cfg, ev = Event.dnsNew cfg) ∨ ev = Event.dnsStart) ∧
    (∀ (eng : Engines) (o : Options) (cfg : DNSConfig) (tun : TunnelConfig),
      toDNSProxyConfig o = Except.ok cfg → togoraoConfig o = Except.ok tun →
      (run eng o).1 <+: [Event.dnsNew cfg, Event.dnsStart, Event.tunnelNew tun,
        Event.tunnelStart, Event.awaitSignal, Event.dnsClose, Event.tunnelClose]) := by
  refine ⟨?_, ?_, ?_, ?_⟩
  · intro eng o e h
    rw [run_eq, h]
  · intro eng o cfg e h1 h2 h3 h4
    rw [run_eq, h1]
    simp only [h3, h4, h2]
  · intro eng o hf
    rw [run_eq]
    cases h1 : toDNSProxyConfig o with
    | error e => simp
    | ok cfg =>
      simp only
      cases eng.dnsNew cfg with
      | some err => simp
      | none =>
        simp only
        cases eng.dnsStart cfg with
        | some err => simp
        | none =>
          simp only
          cases h2 : togoraoConfig o with
          | error e => simp
          | ok tun =>
            simp [failsValidation, h1, h2, Except.toOption] at hf
  · intro eng o cfg tun h1 h2
    rw [run_eq, h1]
    simp only [h2]
    cases eng.dnsNew cfg with
    | some err => exact ⟨_, rfl⟩
    | none =>
      simp only
      cases eng.dnsStart cfg with
      | some err => exact ⟨_, rfl⟩
      | none =>
        simp only
        cases eng.tunnelNew tun with
        | some err => exact ⟨_, rfl⟩
        | none =>
          simp only
          cases eng.tunnelStart tun with
          | some err => exact ⟨_, rfl⟩
          | none => exact ⟨[], rfl⟩

/-- Witness of C11 (amended): the defaults, without redirect target, end the
run before any call on an engine; the defaults with a redirect target and
http-address "example.org" end it after the DNS engine was constructed and
started. -/
theorem C11_startup_order_witness :
    run Engines.healthy DefaultOptions = ([], RunEnd.fatal FatalError.noRedirectTarget) ∧
    run Engines.healthy { DefaultOptions with
        DNSRedirectIPV4To := "203.0.113.5", HTTPListenAddress := "example.org" } =
      ([Event.dnsNew (dnsConfigOf
          { DefaultOptions with
            DNSRedirectIPV4To := "203.0.113.5", HTTPListenAddress := "example.org" }
          (Addr.v4 [0, 0, 0, 0]) (AddrPortFrom (Addr.v4 [0, 0, 0, 0]) 853)
          (AddrPortFrom (Addr.v4 [0, 0, 0, 0]) 8443)
          (AddrPortFrom (Addr.v4 [0, 0, 0, 0]) 8853) (IPv4 203 0 113 5) []),
        Event.dnsStart],
       RunEnd.fatal (FatalError.parseHTTPAddress "example.org")) :=
  ⟨C11_startup_order.1 Engines.healthy DefaultOptions FatalError.noRedirectTarget
      (by decide),
   C11_startup_order.2.1 Engines.healthy
      { DefaultOptions with
        DNSRedirectIPV4To := "203.0.113.5", HTTPListenAddress := "example.org" }
      _ _ (by decide) (by decide) rfl rfl⟩

/-! ## The ports of the DNS configuration -/

theorem uint16_cast (x : Int) : ((uint16 x : Nat) : Int) = x % 65536 := by
  unfold uint16
  exact Int.toNat_of_nonneg (Int.emod_nonneg x (by norm_num))

/-- An activated listener has the parsed address and the truncated port. -/
theorem optionalListener_active (address : String) (port : Int) (ap : AddrPort)
    (h : optionalListener address port = Except.ok ap) (ha : address ≠ "") (hp : port ≠ 0) :
    ParseAddr address = some ap.ip ∧ ap.port = uint16 port := by
  rcases (optionalListener_ok_iff address port ap).1 h with ⟨hd, -⟩ | ⟨-, -, addr, hpa, rfl⟩
  · rcases hd with hd | hd
    · exact absurd hd ha
    · exact absurd hd hp
  · exact ⟨hpa, rfl⟩

/-- An activated listener stays accepted under any other non-zero port. -/
theorem optionalListener_other_port (address : String) (port port' : Int) (ap : AddrPort)
    (h : optionalListener address port = Except.ok ap) (ha : address ≠ "") (hp : port ≠ 0)
    (hp' : port' ≠ 0) :
    optionalListener address port' = Except.ok { ip := ap.ip, port := uint16 port' } := by
  obtain ⟨hpa, -⟩ := optionalListener_active address port ap h ha hp
  exact (optionalListener_ok_iff address port' _).2 (Or.inr ⟨ha, hp', ap.ip, hpa, rfl⟩)

/-- C12: every port of an accepted DNSConfig is the integer setting modulo
2^16: the listen port is dns-port mod 65536 and an activated DoT, DoH or DoQ
listener carries its parsed address and its port setting mod 65536. No port
value is an error: replacing dns-port, or the non-zero port of an activated
listener by another non-zero port, keeps the settings accepted with the new
port truncated. So a secure listener whose port is a non-zero multiple of
65536 is activated with a valid address and port 0 (DoT port 65536 on
"0.0.0.0" gives 0.0.0.0:0, which is not the zero AddrPort), and dns-port -1
gives port 65535. -/
theorem C12_port_truncation :
    (∀ (o : Options) (cfg : DNSConfig), toDNSProxyConfig o = Except.ok cfg →
      (cfg.ListenAddr.port : Int) = o.DNSPort % 65536 ∧
      (o.DOTListenAddress ≠ "" → o.DOTPort ≠ 0 →
        ParseAddr o.DOTListenAddress = some cfg.TLSListenAddr.ip ∧
        (cfg.TLSListenAddr.port : Int) = o.DOTPort % 65536) ∧
      (o.DOHListenAddress ≠ "" → o.DOHPort ≠ 0 →
        ParseAddr o.DOHListenAddress = some cfg.HTTPSListenAddr.ip ∧
        (cfg.HTTPSListenAddr.port : Int) = o.DOHPort % 65536) ∧
      (o.DOQListenAddress ≠ "" → o.DOQPort ≠ 0 →
        ParseAddr o.DOQListenAddress = some cfg.QUICListenAddr.ip ∧
        (cfg.QUICListenAddr.port : Int) = o.DOQPort % 65536)) ∧
    (∀ (o : Options) (cfg : DNSConfig) (p : Int), toDNSProxyConfig o = Except.ok cfg →
      toDNSProxyConfig { o with DNSPort := p } =
        Except.ok { cfg with ListenAddr := { ip := cfg.ListenAddr.ip, port := uint16 p } } ∧
      (o.DOTListenAddress ≠ "" → o.DOTPort ≠ 0 → p ≠ 0 →
        toDNSProxyConfig { o with DOTPort := p } = Except.ok { cfg with
          TLSListenAddr := { ip := cfg.TLSListenAddr.ip, port := uint16 p } }) ∧
      (o.DOHListenAddress ≠ "" → o.DOHPort ≠ 0 → p ≠ 0 →
        toDNSProxyConfig { o with DOHPort := p } = Except.ok { cfg with
          HTTPSListenAddr := { ip := cfg.HTTPSListenAddr.ip, port := uint16 p } }) ∧
      (o.DOQListenAddress ≠ "" → o.DOQPort ≠ 0 → p ≠ 0 →
        toDNSProxyConfig { o with DOQPort := p } = Except.ok { cfg with
          QUICListenAddr := { ip := cfg.QUICListenAddr.ip, port := uint16 p } })) ∧
    (∀ k : Int, uint16 (65536 * k) = 0) ∧
    (∃ cfg, toDNSProxyConfig { DefaultOptions with
        DNSRedirectIPV4To := "203.0.113.5", DOTPort := 65536, DNSPort := -1 } =
          Except.ok cfg ∧
      cfg.TLSListenAddr = { ip := Addr.v4 [0, 0, 0, 0], port := 0 } ∧
      cfg.TLSListenAddr ≠ AddrPort.zero ∧
      cfg.ListenAddr = { ip := Addr.v4 [0, 0, 0, 0], port := 65535 }) := by
  refine ⟨?_, ?_, ?_, ?_⟩
  · intro o cfg h
    obtain ⟨addr, tls, https, quic, r4, r6, -, e1, e2, e3, -, -, -, rfl⟩ :=
      (toDNSProxyConfig_ok_iff o cfg).1 h
    refine ⟨uint16_cast _, ?_, ?_, ?_⟩
    · intro ha hp
      obtain ⟨h1, h2⟩ := optionalListener_active _ _ _ e1 ha hp
      refine ⟨h1, ?_⟩
      show ((tls.port : Nat) : Int) = _
      rw [h2]
      exact uint16_cast _
    · intro ha hp
      obtain ⟨h1, h2⟩ := optionalListener_active _ _ _ e2 ha hp
      refine ⟨h1, ?_⟩
      show ((https.port : Nat) : Int) = _
      rw [h2]
      exact uint16_cast _
    · intro ha hp
      obtain ⟨h1, h2⟩ := optionalListener_active _ _ _ e3 ha hp
      refine ⟨h1, ?_⟩
      show ((quic.port : Nat) : Int) = _
      rw [h2]
      exact uint16_cast _
  · intro o cfg p h
    obtain ⟨addr, tls, https, quic, r4, r6, e0, e1, e2, e3, e4, e5, hne, rfl⟩ :=
      (toDNSProxyConfig_ok_iff o cfg).1 h
    refine ⟨?_, ?_, ?_, ?_⟩
    · exact (toDNSProxyConfig_ok_iff _ _).2
        ⟨addr, tls, https, quic, r4, r6, e0, e1, e2, e3, e4, e5, hne, rfl⟩
    · intro ha hp hp'
      exact (toDNSProxyConfig_ok_iff _ _).2 ⟨addr, _, https, quic, r4, r6, e0,
        optionalListener_other_port _ _ p _ e1 ha hp hp', e2, e3, e4, e5, hne, rfl⟩
    · intro ha hp hp'
      exact (toDNSProxyConfig_ok_iff _ _).2 ⟨addr, tls, _, quic, r4, r6, e0, e1,
        optionalListener_other_port _ _ p _ e2 ha hp hp', e3, e4, e5, hne, rfl⟩
    · intro ha hp hp'
      exact (toDNSProxyConfig_ok_iff _ _).2 ⟨addr, tls, https, _, r4, r6, e0, e1, e2,
        optionalListener_other_port _ _ p _ e3 ha hp hp', e4, e5, hne, rfl⟩
  · intro k
    unfold uint16
    simp
  · exact ⟨dnsConfigOf { DefaultOptions with
        DNSRedirectIPV4To := "203.0.113.5", DOTPort := 65536, DNSPort := -1 }
      (Addr.v4 [0, 0, 0, 0]) { ip := Addr.v4 [0, 0, 0, 0], port := 0 }
      (AddrPortFrom (Addr.v4 [0, 0, 0, 0]) 8443)
      (AddrPortFrom (Addr.v4 [0, 0, 0, 0]) 8853) (IPv4 203 0 113 5) [],
      by decide, rfl, by decide, by decide⟩

/-- Witness of C12: from the accepted defaults with a redirect target, DoH
port 131073 gives port 1, DoQ port -65536 gives an activated listener on port
0, and dns-port 65589 gives port 53. -/
theorem C12_port_truncation_witness :
    (toDNSProxyConfig { DefaultOptions with
        DNSRedirectIPV4To := "203.0.113.5", DOHPort := 131073 } =
      Except.ok (dnsConfigOf
        { DefaultOptions with DNSRedirectIPV4To := "203.0.113.5", DOHPort := 131073 }
        (Addr.v4 [0, 0, 0, 0]) (AddrPortFrom (Addr.v4 [0, 0, 0, 0]) 853)
        { ip := Addr.v4 [0, 0, 0, 0], port := 1 }
        (AddrPortFrom (Addr.v4 [0, 0, 0, 0]) 8853) (IPv4 203 0 113 5) [])) ∧
    (toDNSProxyConfig { DefaultOptions with
        DNSRedirectIPV4To := "203.0.113.5", DOQPort := -65536 } =
      Except.ok (dnsConfigOf
        { DefaultOptions with DNSRedirectIPV4To := "203.0.113.5", DOQPort := -65536 }
        (Addr.v4 [0, 0, 0, 0]) (AddrPortFrom (Addr.v4 [0, 0, 0, 0]) 853)
        (AddrPortFrom (Addr.v4 [0, 0, 0, 0]) 8443)
        { ip := Addr.v4 [0, 0, 0, 0], port := 0 } (IPv4 203 0 113 5) [])) ∧
    (toDNSProxyConfig { DefaultOptions with
        DNSRedirectIPV4To := "203.0.113.5", DNSPort := 65589 } =
      Except.ok (dnsConfigOf
        { DefaultOptions with DNSRedirectIPV4To := "203.0.113.5", DNSPort := 65589 }
        (Addr.v4 [0, 0, 0, 0]) (AddrPortFrom (Addr.v4 [0, 0, 0, 0]) 853)
        (AddrPortFrom (Addr.v4 [0, 0, 0, 0]) 8443)
        (AddrPortFrom (Addr.v4 [0, 0, 0, 0]) 8853) (IPv4 203 0 113 5) []) ∧
      uint16 65589 = 53) :=
  have h : toDNSProxyConfig { DefaultOptions with DNSRedirectIPV4To := "203.0.113.5" } =
      Except.ok (dnsConfigOf { DefaultOptions with DNSRedirectIPV4To := "203.0.113.5" }
        (Addr.v4 [0, 0, 0, 0]) (AddrPortFrom (Addr.v4 [0, 0, 0, 0]) 853)
        (AddrPortFrom (Addr.v4 [0, 0, 0, 0]) 8443)
        (AddrPortFrom (Addr.v4 [0, 0, 0, 0]) 8853) (IPv4 203 0 113 5) []) := by decide
  ⟨(C12_port_truncation.2.1 _ _ 131073 h).2.2.1 (by decide) (by decide) (by decide),
   (C12_port_truncation.2.1 _ _ (-65536) h).2.2.2 (by decide) (by decide) (by decide),
   (C12_port_truncation.2.1 _ _ 65589 h).1, by decide⟩

end Gorao
